import Mathlib

/-!
Shallow embedding of the water-constrained route-planning engine of the
Lake Champlain & Hudson River Boater's Guide (src/js/navigation.js and the
route-assembly part of src/js/app.js), together with proofs of the spec's
testable properties.

Modelling conventions:
* JS numbers that hold geographic coordinates, depths and configuration
  steps are modelled as exact rationals (`ℚ`); the trigonometric distance
  computations (`haversineDistance`, bearings, turn angles) are modelled
  over the reals (`ℝ`).
* The module-level mutable globals (`WATER_BOUNDARIES`, `DEPTH_GRID`,
  `VESSEL_DRAFT`, `SAFETY_MARGIN`, the `waterGrid` cache, and
  `POINTS_OF_INTEREST`) are gathered in an explicit `NavState` record;
  each function takes the state it reads.  A `null` boundary store is
  `Option.none`; grid ids `g0, g1, …` are modelled by their numeric part.
* JS `Infinity` sentinels (`gScore`/`fScore`/nearest-distance scans) are
  modelled with `WithTop ℝ` (`⊤` = `Infinity`) or by an `Option`
  accumulator where the first loop iteration always wins the comparison
  against `Infinity`.
-/

namespace LakeGuide

/-! ### Data model: water bodies, depth samples, POIs -/

/-- A water body loaded from GeoJSON: rings are stored in the source's
(longitude, latitude) order, exactly as `WATER_BOUNDARIES` holds them. -/
structure WaterBody where
  name : String
  outer : List (ℚ × ℚ)
  holes : List (List (ℚ × ℚ))

/-- A point of interest (`POINTS_OF_INTEREST` entry, the fields routing uses). -/
structure Poi where
  id : String
  name : String
  lat : ℚ
  lng : ℚ

/-! ### Point in polygon (ray casting), `navigation.js` lines 355-424 -/

/-- One iteration of the ray-casting loop body of `pointInPolygon`:
`edge = (polygon[i], polygon[j])` with `j` the predecessor index; the JS
`(yi > lat) !== (yj > lat)` is the non-equivalence of the two comparisons. -/
def pipStep (lat lng : ℚ) (inside : Bool) (edge : (ℚ × ℚ) × (ℚ × ℚ)) : Bool :=
  let yi := edge.1.1
  let xi := edge.1.2
  let yj := edge.2.1
  let xj := edge.2.2
  if (¬ ((yi > lat) ↔ (yj > lat))) ∧
      lng < (xj - xi) * (lat - yi) / (yj - yi) + xi then
    !inside
  else
    inside

/-- The `(polygon[i], polygon[j])` pairs visited by
`for (let i = 0, j = n - 1; i < n; j = i++)`: the predecessor of entry 0 is
the last entry. -/
def pipEdges (poly : List (ℚ × ℚ)) : List ((ℚ × ℚ) × (ℚ × ℚ)) :=
  match poly with
  | [] => []
  | p :: ps => (p :: ps).zip ((p :: ps).getLastD p :: (p :: ps).dropLast)

/-- `pointInPolygon(lat, lng, polygon)`: ray casting over `[lat, lng]` vertex
pairs. -/
def pointInPolygon (lat lng : ℚ) (poly : List (ℚ × ℚ)) : Bool :=
  (pipEdges poly).foldl (pipStep lat lng) false

/-- `pointInPolygonWithHoles(lat, lng, outerRing, holeRings)`. -/
def pointInPolygonWithHoles (lat lng : ℚ) (outerRing : List (ℚ × ℚ))
    (holeRings : List (List (ℚ × ℚ))) : Bool :=
  if !pointInPolygon lat lng outerRing then
    false
  else if holeRings.any (fun hole => pointInPolygon lat lng hole) then
    false
  else
    true

/-- `geoJsonToLatLng`: swap each `[lng, lat]` pair to `[lat, lng]`. -/
def geoJsonToLatLng (coords : List (ℚ × ℚ)) : List (ℚ × ℚ) :=
  coords.map (fun c => (c.2, c.1))

/-- `isInWater(lat, lng)` as a function of the loaded boundary store
(`WATER_BOUNDARIES`; `none` models the `null` initial state). -/
def isInWater (boundaries : Option (List WaterBody)) (lat lng : ℚ) : Bool :=
  match boundaries with
  | none => false
  | some bodies =>
    if bodies.isEmpty then false
    else bodies.any (fun wb =>
      pointInPolygonWithHoles lat lng (geoJsonToLatLng wb.outer)
        (wb.holes.map geoJsonToLatLng))

/-! ### Grid configuration and navigation state -/

/-- `GRID_CONFIG`'s shape (`latStep`, `lngStep`, `bounds`). -/
structure GridConfig where
  latStep : ℚ
  lngStep : ℚ
  south : ℚ
  north : ℚ
  west : ℚ
  east : ℚ

/-- The constant `GRID_CONFIG` of `navigation.js`. -/
def GRID_CONFIG : GridConfig :=
  { latStep := 0.00180, lngStep := 0.00240,
    south := 43.5300, north := 45.0900, west := -73.5200, east := -73.0700 }

/-- Default `VESSEL_DRAFT` (metres). -/
def VESSEL_DRAFT : ℚ := 1.5

/-- Default `SAFETY_MARGIN` (metres). -/
def SAFETY_MARGIN : ℚ := 1.0

/-- `MAX_GRID_SEARCH_DISTANCE_KM`. -/
def MAX_GRID_SEARCH_DISTANCE_KM : ℚ := 5

/-- A generated water grid point.  `id` is the numeric part of the source's
`g${id}` string id; `lat`/`lng` are the quantized coordinates. -/
structure GridPoint where
  id : Nat
  lat : ℚ
  lng : ℚ
  depth : Option ℚ
  row : ℤ
  col : ℤ
deriving DecidableEq

/-- The module-level mutable state of `navigation.js`, made explicit. -/
structure NavState where
  boundaries : Option (List WaterBody)
  /-- `DEPTH_GRID` keyed by the numeric part of the `g${id}` cell id;
  `fun _ => none` models both an empty and an absent depth map. -/
  depthGrid : Nat → Option ℚ
  vesselDraft : ℚ
  safetyMargin : ℚ
  gridConfig : GridConfig
  pois : List Poi
  /-- The lazily generated `waterGrid` cache (`null` initially). -/
  waterGridCache : Option (List GridPoint)

/-! ### Grid generation (`generateWaterGrid`, lines 543-632) -/

/-- `Math.round(q * 1000000) / 1000000` (JS `Math.round` rounds half toward
`+∞`, as does Lean's `round`). -/
def round6 (q : ℚ) : ℚ := ((round (q * 1000000) : ℤ) : ℚ) / 1000000

/-- Latitude of lattice row `k`. -/
def latOf (cfg : GridConfig) (k : ℕ) : ℚ := cfg.south + k * cfg.latStep

/-- Longitude of lattice column `l`. -/
def lngOf (cfg : GridConfig) (l : ℕ) : ℚ := cfg.west + l * cfg.lngStep

/-- Number of iterations of `for (let lat = south; lat <= north; lat += latStep)`
in exact arithmetic (0 when the loop guard fails immediately; the source
would not terminate for a nonpositive step, which valid configurations
exclude). -/
def rowCount (cfg : GridConfig) : ℕ :=
  if cfg.latStep > 0 ∧ cfg.south ≤ cfg.north then
    (⌊(cfg.north - cfg.south) / cfg.latStep⌋).toNat + 1
  else 0

/-- Number of iterations of the inner `lng` loop. -/
def colCount (cfg : GridConfig) : ℕ :=
  if cfg.lngStep > 0 ∧ cfg.west ≤ cfg.east then
    (⌊(cfg.east - cfg.west) / cfg.lngStep⌋).toNat + 1
  else 0

/-- The lattice cells `(k, l)` in the row-major order the nested loops visit. -/
def cells (cfg : GridConfig) : List (ℕ × ℕ) :=
  (List.range (rowCount cfg)).flatMap
    (fun k => (List.range (colCount cfg)).map (fun l => (k, l)))

/-- The loop body of `generateWaterGrid` for one lattice cell: the accumulator
carries the grid built so far and the `id` counter (which only advances when a
point is actually added, mirroring the source). -/
def gridStep (st : NavState) (acc : List GridPoint × ℕ) (cell : ℕ × ℕ) :
    List GridPoint × ℕ :=
  let lat := latOf st.gridConfig cell.1
  let lng := lngOf st.gridConfig cell.2
  if isInWater st.boundaries lat lng then
    match st.depthGrid acc.2 with
    | some d =>
      if d < st.vesselDraft + st.safetyMargin then
        acc  -- depth-filtered: point dropped, id not incremented
      else
        (acc.1 ++ [{ id := acc.2,
                     lat := round6 lat, lng := round6 lng,
                     depth := some d,
                     row := round ((lat - st.gridConfig.south) / st.gridConfig.latStep),
                     col := round ((lng - st.gridConfig.west) / st.gridConfig.lngStep) }],
         acc.2 + 1)
    | none =>
      (acc.1 ++ [{ id := acc.2,
                   lat := round6 lat, lng := round6 lng,
                   depth := none,
                   row := round ((lat - st.gridConfig.south) / st.gridConfig.latStep),
                   col := round ((lng - st.gridConfig.west) / st.gridConfig.lngStep) }],
       acc.2 + 1)
  else acc

/-- The pure generation pass of `generateWaterGrid` (cache miss path). -/
def buildWaterGrid (st : NavState) : List GridPoint :=
  ((cells st.gridConfig).foldl (gridStep st) ([], 0)).1

/-- `generateWaterGrid()`: returns the cached grid when present, `none` when
boundaries are missing/empty (the source returns `null`), and otherwise the
freshly built grid.  The write to the module-level cache is modelled by
`NavState.waterGridCache` in the caller's hands. -/
def generateWaterGrid (st : NavState) : Option (List GridPoint) :=
  match st.waterGridCache with
  | some g => some g
  | none =>
    match st.boundaries with
    | none => none
    | some bodies => if bodies.isEmpty then none else some (buildWaterGrid st)

/-- `minSafeDepth = VESSEL_DRAFT + SAFETY_MARGIN` for the current state. -/
def minimumSafeDepth (st : NavState) : ℚ := st.vesselDraft + st.safetyMargin

/-- Exactness of a grid configuration: bounds and steps are integer
multiples of `10^-6`, so the source's `Math.round(x*1000000)/1000000`
quantization is the identity on lattice coordinates.  The actual
`GRID_CONFIG` satisfies this (its values have four decimal places). -/
def cfgExact (cfg : GridConfig) : Prop :=
  ∃ a b c d : ℤ, cfg.south = (a : ℚ) / 1000000 ∧ cfg.latStep = (b : ℚ) / 1000000 ∧
    cfg.west = (c : ℚ) / 1000000 ∧ cfg.lngStep = (d : ℚ) / 1000000

/-- Invariant carried by the `generateWaterGrid` loop: every stored point is
the quantization of a lattice cell that passed the `isInWater` test, and any
depth sample stored under the point's cell id clears the minimum safe depth. -/
def GoodPoint (st : NavState) (p : GridPoint) : Prop :=
  (∃ k l, p.lat = round6 (latOf st.gridConfig k) ∧
      p.lng = round6 (lngOf st.gridConfig l) ∧
      isInWater st.boundaries (latOf st.gridConfig k) (lngOf st.gridConfig l) = true) ∧
    ∀ d, st.depthGrid p.id = some d → minimumSafeDepth st ≤ d

/-! ### Haversine distance (`haversineDistance`, lines 456-466) -/

open Real in
/-- JS `Math.atan2(y, x)`. -/
noncomputable def atan2 (y x : ℝ) : ℝ :=
  if 0 < x then arctan (y / x)
  else if x < 0 then
    (if 0 ≤ y then arctan (y / x) + π else arctan (y / x) - π)
  else
    (if 0 < y then π / 2 else if y < 0 then -(π / 2) else 0)

/-- `EARTH_RADIUS_KM`. -/
def EARTH_RADIUS_KM : ℝ := 6371

open Real in
/-- The intermediate `a` of `haversineDistance` (the haversine of the central
angle): `sin(dLat/2)^2 + cos(lat1)cos(lat2)sin(dLng/2)^2` with all angles in
radians. -/
noncomputable def havA (lat1 lng1 lat2 lng2 : ℚ) : ℝ :=
  sin (((lat2 : ℝ) - (lat1 : ℝ)) * π / 180 / 2) *
      sin (((lat2 : ℝ) - (lat1 : ℝ)) * π / 180 / 2) +
    cos ((lat1 : ℝ) * π / 180) * cos ((lat2 : ℝ) * π / 180) *
      sin (((lng2 : ℝ) - (lng1 : ℝ)) * π / 180 / 2) *
      sin (((lng2 : ℝ) - (lng1 : ℝ)) * π / 180 / 2)

open Real in
/-- `haversineDistance(lat1, lng1, lat2, lng2)` in kilometres:
`c = 2*atan2(sqrt a, sqrt (1-a))`, result `EARTH_RADIUS_KM * c`. -/
noncomputable def haversineDistance (lat1 lng1 lat2 lng2 : ℚ) : ℝ :=
  EARTH_RADIUS_KM *
    (2 * atan2 (Real.sqrt (havA lat1 lng1 lat2 lng2))
      (Real.sqrt (1 - havA lat1 lng1 lat2 lng2)))

open Real in
/-- Unit direction vector of a latitude/longitude pair given in radians;
used to relate the haversine formula to the spherical central angle. -/
noncomputable def sph (phi lam : ℝ) : ℝ × ℝ × ℝ :=
  (cos phi * cos lam, cos phi * sin lam, sin phi)

/-- Euclidean dot product on ℝ³ (as nested pairs). -/
def dot3 (u v : ℝ × ℝ × ℝ) : ℝ :=
  u.1 * v.1 + u.2.1 * v.2.1 + u.2.2 * v.2.2

open Real in
/-- Degrees to radians. -/
noncomputable def rad (d : ℚ) : ℝ := (d : ℝ) * π / 180

/-- Sum of the great-circle lengths of the consecutive segments of a
coordinate list — the accumulation loops of `findPath` (lines 758-764) and
`calculateWaterRoute` (lines 1222-1227). -/
noncomputable def polylineDistance : List (ℚ × ℚ) → ℝ
  | [] => 0
  | [_] => 0
  | p :: q :: rest =>
    haversineDistance p.1 p.2 q.1 q.2 + polylineDistance (q :: rest)

/-! ### Routing configuration (`ROUTING_CONFIG`) -/

/-- `ROUTING_CONFIG.turnPenalty`. -/
structure TurnPenaltyConfig where
  enabled : Bool
  gentle : ℝ
  moderate : ℝ
  sharp : ℝ
  verySharp : ℝ

/-- `ROUTING_CONFIG.smoothing`. -/
structure SmoothingConfig where
  enabled : Bool
  method : String
  tension : ℚ
  simplifyFirst : Bool
  simplifyTolerance : ℚ

/-- The parts of `ROUTING_CONFIG` the routing engine reads. -/
structure RoutingConfig where
  turnPenalty : TurnPenaltyConfig
  smoothing : SmoothingConfig

/-- The constant `ROUTING_CONFIG` of `navigation.js` (smoothing is shipped
disabled; turn penalties are enabled). -/
def ROUTING_CONFIG : RoutingConfig :=
  { turnPenalty :=
      { enabled := true, gentle := 0.05, moderate := 0.15,
        sharp := 0.40, verySharp := 0.80 },
    smoothing :=
      { enabled := false, method := "catmull-rom", tension := 0.9,
        simplifyFirst := false, simplifyTolerance := 0.00001 } }

/-! ### Bearings and turn penalties (lines 479-534) -/

open Real in
/-- `calculateBearing`: initial compass bearing from point 1 to point 2; the
JS `(bearing + 360) % 360` on the positive dividend is `x - 360*⌊x/360⌋`. -/
noncomputable def calculateBearing (lat1 lng1 lat2 lng2 : ℚ) : ℝ :=
  let dLng := ((lng2 : ℝ) - (lng1 : ℝ)) * π / 180
  let lat1Rad := (lat1 : ℝ) * π / 180
  let lat2Rad := (lat2 : ℝ) * π / 180
  let y := sin dLng * cos lat2Rad
  let x := cos lat1Rad * sin lat2Rad - sin lat1Rad * cos lat2Rad * cos dLng
  let bearing := atan2 y x * 180 / π
  (bearing + 360) - 360 * (⌊(bearing + 360) / 360⌋ : ℝ)

/-- `calculateTurnAngle` on non-null points (the source returns 0 for `null`
arguments, which the model's total functions cannot receive). -/
noncomputable def calculateTurnAngle (p1 p2 p3 : ℚ × ℚ) : ℝ :=
  let bearing1 := calculateBearing p1.1 p1.2 p2.1 p2.2
  let bearing2 := calculateBearing p2.1 p2.2 p3.1 p3.2
  let angle := |bearing2 - bearing1|
  if angle > 180 then 360 - angle else angle

/-- `calculateTurnCost`: bucketed turn penalty. -/
noncomputable def calculateTurnCost (turnAngle : ℝ) : ℝ :=
  if !ROUTING_CONFIG.turnPenalty.enabled then 0
  else
    let angle := |turnAngle|
    if angle < 30 then ROUTING_CONFIG.turnPenalty.gentle
    else if angle < 60 then ROUTING_CONFIG.turnPenalty.moderate
    else if angle < 90 then ROUTING_CONFIG.turnPenalty.sharp
    else ROUTING_CONFIG.turnPenalty.verySharp

/-! ### Neighbors and nearest-point search (lines 637-654, 1096-1147) -/

/-- `gridIndex` lookup by the `"row,col"` key (keys are unique, so the first
match is the only match). -/
def gridIndexLookup (grid : List GridPoint) (r c : ℤ) : Option GridPoint :=
  grid.find? (fun p => p.row == r && p.col == c)

/-- The 8 direction offsets of `getNeighbors`, in source order. -/
def directions : List (ℤ × ℤ) :=
  [(-1, 0), (-1, 1), (0, 1), (1, 1), (1, 0), (1, -1), (0, -1), (-1, -1)]

/-- `getNeighbors(point)`: the up-to-8 lattice neighbors present in the grid. -/
def getNeighbors (grid : List GridPoint) (point : GridPoint) : List GridPoint :=
  directions.filterMap
    (fun d => gridIndexLookup grid (point.row + d.1) (point.col + d.2))

/-- The linear nearest-point scan shared by both branches of
`findNearestGridPoint` (the RBush branch also iterates every point); the
`nearestDist = Infinity` sentinel is modelled by the `Option` accumulator,
whose first candidate always wins. -/
noncomputable def scanNearest (lat lng : ℚ) (grid : List GridPoint) :
    Option GridPoint :=
  (grid.foldl (fun acc p =>
    let d := haversineDistance lat lng p.lat p.lng
    match acc with
    | none => some (p, d)
    | some (q, dq) => if d < dq then some (p, d) else some (q, dq)) none).map
    (fun x => x.1)

/-- `findNearestGridPoint(lat, lng)`. -/
noncomputable def findNearestGridPoint (st : NavState) (lat lng : ℚ) :
    Option GridPoint :=
  match generateWaterGrid st with
  | none => none
  | some grid => if grid.isEmpty then none else scanNearest lat lng grid

/-! ### A* search (`findPath`, lines 667-812) -/

/-- The open-set minimum scan: `lowestF = Infinity; current = null;` then a
strict `<` pass in insertion order (the earliest minimum wins, and an entry
with `fScore = Infinity` never beats the sentinel). -/
noncomputable def astarPick (f : ℕ → WithTop ℝ) (openSet : List GridPoint) :
    Option GridPoint :=
  (openSet.foldl (fun acc p =>
    match acc with
    | none => if f p.id < ⊤ then some (p, f p.id) else none
    | some (q, dq) => if f p.id < dq then some (p, f p.id) else some (q, dq))
    none).map (fun x => x.1)

/-- The `while (cameFrom[curr])` backtracking loop that rebuilds the path by
`unshift`; fuel bounds the walk (A* predecessor chains never cycle, so the
fuel `grid.length` used below is never exhausted on reachable states). -/
def reconstructPath (pointById : ℕ → Option GridPoint)
    (cameFrom : ℕ → Option ℕ) : ℕ → ℕ → List GridPoint → List GridPoint
  | 0, _, acc => acc
  | fuel + 1, curr, acc =>
    match cameFrom curr with
    | none => acc
    | some prev =>
      match pointById prev with
      | some p => reconstructPath pointById cameFrom fuel prev (p :: acc)
      | none => acc

/-- The turn-penalty cost of stepping from `current` to neighbor `n` given
the predecessor recorded in `cameFrom` (lines 779-786): zero when penalties
are disabled or `current` has no recorded predecessor. -/
noncomputable def astarTurnCost (pointById : ℕ → Option GridPoint)
    (came : ℕ → Option ℕ) (current n : GridPoint) : ℝ :=
  if ROUTING_CONFIG.turnPenalty.enabled then
    match came current.id with
    | some prevId =>
      match pointById prevId with
      | some prev =>
        calculateTurnCost (calculateTurnAngle (prev.lat, prev.lng)
          (current.lat, current.lng) (n.lat, n.lng))
      | none => 0
    | none => 0
  else 0

/-- One neighbor-relaxation step of the A* main loop (the body of the
`for (const neighbor of getNeighbors(current))` loop).  The accumulator
carries the open set, `cameFrom`, `gScore` and `fScore`. -/
noncomputable def astarRelax (pointById : ℕ → Option GridPoint)
    (endPoint current : GridPoint) (closed : List ℕ)
    (acc : List GridPoint × (ℕ → Option ℕ) × (ℕ → WithTop ℝ) × (ℕ → WithTop ℝ))
    (n : GridPoint) :
    List GridPoint × (ℕ → Option ℕ) × (ℕ → WithTop ℝ) × (ℕ → WithTop ℝ) :=
  let openAcc := acc.1
  let came := acc.2.1
  let g := acc.2.2.1
  let f := acc.2.2.2
  if n.id ∈ closed then acc
  else
    let distanceCost := haversineDistance current.lat current.lng n.lat n.lng
    let turnCost : ℝ := astarTurnCost pointById came current n
    let tentativeG := g current.id + ((distanceCost + turnCost : ℝ) : WithTop ℝ)
    if tentativeG < g n.id then
      (if openAcc.any (fun p => p.id == n.id) then openAcc else openAcc ++ [n],
       Function.update came n.id (some current.id),
       Function.update g n.id tentativeG,
       Function.update f n.id (tentativeG +
         ((haversineDistance n.lat n.lng endPoint.lat endPoint.lng : ℝ) : WithTop ℝ)))
    else acc

/-- The A* main loop (`while (openSet.size > 0)`), with fuel: each iteration
moves one node from the open set to the closed set, so `grid.length + 1`
iterations suffice for grids with distinct ids. -/
noncomputable def astarLoop (grid : List GridPoint)
    (pointById : ℕ → Option GridPoint) (endPoint : GridPoint) :
    ℕ → List GridPoint → (ℕ → Option ℕ) → (ℕ → WithTop ℝ) →
      (ℕ → WithTop ℝ) → List ℕ → Option (List GridPoint × ℝ)
  | 0, _, _, _, _, _ => none
  | fuel + 1, openSet, cameFrom, g, f, closed =>
    if openSet.isEmpty then none
    else
      match astarPick f openSet with
      | none => none
      | some current =>
        if current.id = endPoint.id then
          let path := reconstructPath pointById cameFrom grid.length current.id
            [current]
          some (path, polylineDistance (path.map (fun p => (p.lat, p.lng))))
        else
          let openSet' := openSet.filter (fun p => p.id != current.id)
          let closed' := closed ++ [current.id]
          let stepped := (getNeighbors grid current).foldl
            (astarRelax pointById endPoint current closed')
            (openSet', cameFrom, g, f)
          astarLoop grid pointById endPoint fuel stepped.1 stepped.2.1
            stepped.2.2.1 stepped.2.2.2 closed'

/-- `findPath(startLat, startLng, endLat, endLng)`.  Finiteness always holds
for exact rationals; the range validation, snap, snap-radius guards and A*
setup mirror the source. -/
noncomputable def findPath (st : NavState)
    (startLat startLng endLat endLng : ℚ) : Option (List GridPoint × ℝ) :=
  if startLat < -90 ∨ startLat > 90 ∨ endLat < -90 ∨ endLat > 90 ∨
      startLng < -180 ∨ startLng > 180 ∨ endLng < -180 ∨ endLng > 180 then
    none
  else
    match generateWaterGrid st with
    | none => none
    | some grid =>
      if grid.isEmpty then none
      else
        match findNearestGridPoint st startLat startLng,
            findNearestGridPoint st endLat endLng with
        | some startPoint, some endPoint =>
          let startDist :=
            haversineDistance startLat startLng startPoint.lat startPoint.lng
          let endDist :=
            haversineDistance endLat endLng endPoint.lat endPoint.lng
          if startDist > ((MAX_GRID_SEARCH_DISTANCE_KM : ℚ) : ℝ) then none
          else if endDist > ((MAX_GRID_SEARCH_DISTANCE_KM : ℚ) : ℝ) then none
          else
            let pointById : ℕ → Option GridPoint :=
              fun i => grid.find? (fun p => p.id == i)
            let g0 : ℕ → WithTop ℝ :=
              fun i => if i = startPoint.id then (0 : WithTop ℝ) else ⊤
            let f0 : ℕ → WithTop ℝ :=
              fun i =>
                if i = startPoint.id then
                  ((haversineDistance startPoint.lat startPoint.lng
                    endPoint.lat endPoint.lng : ℝ) : WithTop ℝ)
                else ⊤
            astarLoop grid pointById endPoint (grid.length + 1) [startPoint]
              (fun _ => none) g0 f0 []
        | _, _ => none

/-! ### Path smoothing (`douglasPeucker` … `smoothPath`, lines 824-1055).
`ROUTING_CONFIG.smoothing.enabled` is `false`, so `smoothPath` returns its
input; the stages are still embedded faithfully. -/

/-- `perpendicularDistance(point, lineStart, lineEnd)` (lat = `.1`,
lng = `.2`). -/
noncomputable def perpendicularDistance (point lineStart lineEnd : ℚ × ℚ) : ℝ :=
  let dx := lineEnd.2 - lineStart.2
  let dy := lineEnd.1 - lineStart.1
  let numerator :=
    |dy * point.2 - dx * point.1 + lineEnd.2 * lineStart.1 -
      lineEnd.1 * lineStart.2|
  ((numerator : ℚ) : ℝ) / Real.sqrt (((dx * dx + dy * dy : ℚ) : ℝ))

/-- The maximum-distance scan of `douglasPeucker` over interior indices
`1 … points.length-2` (returns `(maxDistance, index)`, initial `(0, 0)`). -/
noncomputable def dpMaxScan (points : List (ℚ × ℚ)) : ℝ × ℕ :=
  (List.range (points.length - 2)).foldl (fun acc j =>
    let i := j + 1
    let distance := perpendicularDistance (points.getD i (0, 0))
      (points.getD 0 (0, 0)) (points.getD (points.length - 1) (0, 0))
    if distance > acc.1 then (distance, i) else acc) (0, 0)

/-- `douglasPeucker(points, tolerance)`; fuel bounds the recursion depth
(`points.length` suffices since both recursive slices are strictly shorter). -/
noncomputable def douglasPeucker :
    ℕ → List (ℚ × ℚ) → ℚ → List (ℚ × ℚ)
  | 0, points, _ => points
  | fuel + 1, points, tolerance =>
    if points.length ≤ 2 then points
    else
      let m := dpMaxScan points
      if m.1 > ((tolerance : ℚ) : ℝ) then
        let left := douglasPeucker fuel (points.take (m.2 + 1)) tolerance
        let right := douglasPeucker fuel (points.drop m.2) tolerance
        left.dropLast ++ right
      else
        [points.getD 0 (0, 0), points.getD (points.length - 1) (0, 0)]

/-- `catmullRomInterpolate` (the `alpha` parameter is ignored by the source's
formula, exactly as here). -/
def catmullRomInterpolate (p0 p1 p2 p3 t _alpha : ℚ) : ℚ :=
  let t2 := t * t
  let t3 := t2 * t
  0.5 * ((2 * p1) + (-p0 + p2) * t + (2 * p0 - 5 * p1 + 4 * p2 - p3) * t2 +
    (-p0 + 3 * p1 - 3 * p2 + p3) * t3)

/-- `catmullRomSpline(points, segmentsPerPoint, tension)`. -/
def catmullRomSpline (points : List (ℚ × ℚ)) (segmentsPerPoint : ℕ)
    (tension : ℚ) : List (ℚ × ℚ) :=
  if points.length < 2 then points
  else if points.length == 2 then points
  else
    (List.range (points.length - 1)).foldl (fun res i =>
      let p0 := if i > 0 then points.getD (i - 1) (0, 0) else points.getD i (0, 0)
      let p1 := points.getD i (0, 0)
      let p2 := points.getD (i + 1) (0, 0)
      let p3 := if i < points.length - 2 then points.getD (i + 2) (0, 0)
        else points.getD (i + 1) (0, 0)
      res ++ (List.range segmentsPerPoint).map (fun t' =>
        let tNorm := ((t' + 1 : ℕ) : ℚ) / (segmentsPerPoint : ℚ)
        (catmullRomInterpolate p0.1 p1.1 p2.1 p3.1 tNorm tension,
         catmullRomInterpolate p0.2 p1.2 p2.2 p3.2 tNorm tension)))
      [points.getD 0 (0, 0)]

/-- `findNearestPointInArray(target, pointArray)` (Euclidean scan with the
`Infinity` sentinel modelled by the `Option` accumulator). -/
noncomputable def findNearestPointInArray (target : ℚ × ℚ)
    (pointArray : List (ℚ × ℚ)) : Option (ℚ × ℚ) :=
  (pointArray.foldl (fun acc point =>
    let dist := Real.sqrt ((((target.1 - point.1) ^ 2 +
      (target.2 - point.2) ^ 2 : ℚ)) : ℝ)
    match acc with
    | none => some (point, dist)
    | some (q, dq) => if dist < dq then some (point, dist) else some (q, dq))
    none).map (fun x => x.1)

/-- `validateSmoothedPath(smoothedPath, originalPath)`: first and last points
are copied unchecked; interior points that fail `isInWater` are replaced by
the nearest original-path point (if it is in water) or the last good point.
Returns `(validated, landIssues)`. -/
noncomputable def validateSmoothedPath (boundaries : Option (List WaterBody))
    (smoothedPath originalPath : List (ℚ × ℚ)) : List (ℚ × ℚ) × ℕ :=
  let first := smoothedPath.getD 0 (0, 0)
  let interior := (smoothedPath.drop 1).dropLast
  let step := interior.foldl (fun (acc : List (ℚ × ℚ) × ℕ × (ℚ × ℚ)) point =>
    let validated := acc.1
    let landIssues := acc.2.1
    let lastGoodPoint := acc.2.2
    if isInWater boundaries point.1 point.2 then
      (validated ++ [point], landIssues, point)
    else
      match findNearestPointInArray point originalPath with
      | some nearestOriginal =>
        if isInWater boundaries nearestOriginal.1 nearestOriginal.2 then
          (validated ++ [nearestOriginal], landIssues + 1, nearestOriginal)
        else
          (validated ++ [lastGoodPoint], landIssues + 1, lastGoodPoint)
      | none => (validated ++ [lastGoodPoint], landIssues + 1, lastGoodPoint))
    ([first], 0, first)
  (step.1 ++ [smoothedPath.getD (smoothedPath.length - 1) (0, 0)], step.2.1)

/-- Result of `smoothPath` (the `simplifiedWaypoints` metadatum, absent from
the early return, is omitted; no claim reads it). -/
structure SmoothResult where
  smoothed : List (ℚ × ℚ)
  originalWaypoints : ℕ
  smoothedWaypoints : ℕ
  method : String
  landIssues : ℕ

/-- `smoothPath(path)`: identity when smoothing is disabled or the path is
short; otherwise simplify, spline, and revalidate. -/
noncomputable def smoothPath (boundaries : Option (List WaterBody))
    (path : List (ℚ × ℚ)) : SmoothResult :=
  if !ROUTING_CONFIG.smoothing.enabled || path.length < 3 then
    { smoothed := path, originalWaypoints := path.length,
      smoothedWaypoints := path.length, method := "none", landIssues := 0 }
  else
    let originalPath := path
    let result0 :=
      if ROUTING_CONFIG.smoothing.simplifyFirst then
        douglasPeucker path.length path ROUTING_CONFIG.smoothing.simplifyTolerance
      else path
    let result1 :=
      if ROUTING_CONFIG.smoothing.method == "catmull-rom" then
        catmullRomSpline result0
          (max 3 (⌊10 * (1 - ROUTING_CONFIG.smoothing.tension)⌋.toNat))
          ROUTING_CONFIG.smoothing.tension
      else result0
    let validation := validateSmoothedPath boundaries result1 originalPath
    { smoothed := validation.1, originalWaypoints := path.length,
      smoothedWaypoints := validation.1.length,
      method := ROUTING_CONFIG.smoothing.method, landIssues := validation.2 }

/-! ### Turn analysis and route assembly (lines 1063-1262, app.js 895-953) -/

/-- One recorded turn of `analyzeTurns` (`loc` is the source's `at`). -/
structure Turn where
  loc : ℚ × ℚ
  angle : ℤ
  severity : String

/-- `analyzeTurns(path)`: significant turns (over 30°) with rounded angle and
severity bucket. -/
noncomputable def analyzeTurns (path : List (ℚ × ℚ)) : List Turn :=
  (List.range (path.length - 2)).filterMap (fun j =>
    let i := j + 1
    let angle := calculateTurnAngle (path.getD (i - 1) (0, 0))
      (path.getD i (0, 0)) (path.getD (i + 1) (0, 0))
    if angle > 30 then
      some { loc := path.getD i (0, 0),
             angle := ⌊angle + 1 / 2⌋,
             severity :=
               if angle > 90 then "very-sharp"
               else if angle > 60 then "sharp"
               else if angle > 45 then "moderate"
               else "gentle" }
    else none)

/-- The fields of a `calculateWaterRoute` result that claims read.  Fields a
branch leaves `undefined` (e.g. `isFallback` on success legs) take their JS
falsy defaults; the display-only fields (`warnings` strings,
`channelMarkers`, `safetyMargin`, `clearanceIssues`) are omitted. -/
structure RouteResult where
  coordinates : List (ℚ × ℚ)
  distance : ℝ
  path : List ℕ
  isFallback : Bool := false
  smoothed : Bool := false
  smoothingMethod : String := "none"
  originalWaypoints : ℕ := 0
  smoothedWaypoints : ℕ := 0
  turns : List Turn := []
  maxTurnAngle : ℤ := 0
  sharpTurns : ℕ := 0

/-- The raw coordinate path of a found-path leg (lines 1192-1196): the raw
start POI coordinate, the grid waypoints, the raw end POI coordinate. -/
def rawRouteCoords (startPoi endPoi : Poi) (finalPath : List GridPoint) :
    List (ℚ × ℚ) :=
  (startPoi.lat, startPoi.lng) :: (finalPath.map (fun p => (p.lat, p.lng))) ++
    [(endPoi.lat, endPoi.lng)]

/-- `startGridDist` (lines 1210-1213): snap spur from the raw start to its
grid anchor (A* paths are nonempty, so the `none` default is unreachable). -/
noncomputable def spurStartDist (startPoi : Poi) (finalPath : List GridPoint) : ℝ :=
  match finalPath.head? with
  | some h => haversineDistance startPoi.lat startPoi.lng h.lat h.lng
  | none => 0

/-- `endGridDist` (lines 1214-1218): snap spur from the raw end to its grid
anchor. -/
noncomputable def spurEndDist (endPoi : Poi) (finalPath : List GridPoint) : ℝ :=
  match finalPath.getLast? with
  | some l => haversineDistance endPoi.lat endPoi.lng l.lat l.lng
  | none => 0

/-- The route object built by `calculateWaterRoute`'s found-path branch
(lines 1187-1261). -/
noncomputable def successRouteResult (boundaries : Option (List WaterBody))
    (startPoi endPoi : Poi) (finalPath : List GridPoint) : RouteResult :=
  let rawCoordinates := rawRouteCoords startPoi endPoi finalPath
  let smoothResult := smoothPath boundaries rawCoordinates
  let smoothedCoordinates := smoothResult.smoothed
  let turns := analyzeTurns smoothedCoordinates
  let smoothedDistance := spurStartDist startPoi finalPath +
    spurEndDist endPoi finalPath + polylineDistance smoothedCoordinates
  { coordinates := smoothedCoordinates,
    distance := smoothedDistance,
    path := finalPath.map (fun p => p.id),
    smoothed := ROUTING_CONFIG.smoothing.enabled,
    smoothingMethod := smoothResult.method,
    originalWaypoints := smoothResult.originalWaypoints,
    smoothedWaypoints := smoothResult.smoothedWaypoints,
    turns := turns,
    maxTurnAngle := (turns.map (fun t => t.angle)).foldl max 0,
    sharpTurns := (turns.filter (fun t =>
      t.severity == "sharp" || t.severity == "very-sharp")).length }

/-- `calculateWaterRoute(startPoiId, endPoiId)`. -/
noncomputable def calculateWaterRoute (st : NavState)
    (startPoiId endPoiId : String) : Option RouteResult :=
  match st.pois.find? (fun p => p.id == startPoiId),
      st.pois.find? (fun p => p.id == endPoiId) with
  | some startPoi, some endPoi =>
    if startPoiId == endPoiId then
      some { coordinates := [(startPoi.lat, startPoi.lng)], distance := 0,
             path := [] }
    else
      match findPath st startPoi.lat startPoi.lng endPoi.lat endPoi.lng with
      | none =>
        some { coordinates := [(startPoi.lat, startPoi.lng),
                               (endPoi.lat, endPoi.lng)],
               distance := haversineDistance startPoi.lat startPoi.lng
                 endPoi.lat endPoi.lng,
               path := [], isFallback := true }
      | some (finalPath, _) =>
        some (successRouteResult st.boundaries startPoi endPoi finalPath)
  | _, _ => none

/-- One itinerary leg of app.js `calculateRoute` (`fromName`/`toName` are the
source's `from`/`to`, which are reserved words here). -/
structure RouteLeg where
  fromName : String
  toName : String
  distanceKm : ℝ

/-- The coordinates/distance contribution of one leg of app.js
`calculateRoute`: non-fallback water routes contribute their coordinate list
(sliced from index 1 for every leg after the first); fallback or missing
routes contribute the straight pair, with the start only on the first leg.
`calculateDistance` of app.js computes the identical haversine formula, so it
is modelled by `haversineDistance`. -/
noncomputable def legContribution (st : NavState) (i : ℕ) (startPoi endPoi : Poi)
    (acc : List (ℚ × ℚ) × ℝ × List RouteLeg) :
    List (ℚ × ℚ) × ℝ × List RouteLeg :=
  let routeResult := calculateWaterRoute st startPoi.id endPoi.id
  match routeResult with
  | some r =>
    if !r.isFallback then
      (if i = 0 then r.coordinates else acc.1 ++ r.coordinates.drop 1,
       acc.2.1 + r.distance,
       acc.2.2 ++ [{ fromName := startPoi.name, toName := endPoi.name,
                     distanceKm := r.distance }])
    else
      let segmentDistanceKm := haversineDistance startPoi.lat startPoi.lng
        endPoi.lat endPoi.lng
      ((if i = 0 then acc.1 ++ [(startPoi.lat, startPoi.lng)] else acc.1) ++
        [(endPoi.lat, endPoi.lng)],
       acc.2.1 + segmentDistanceKm,
       acc.2.2 ++ [{ fromName := startPoi.name, toName := endPoi.name,
                     distanceKm := segmentDistanceKm }])
  | none =>
    let segmentDistanceKm := haversineDistance startPoi.lat startPoi.lng
      endPoi.lat endPoi.lng
    ((if i = 0 then acc.1 ++ [(startPoi.lat, startPoi.lng)] else acc.1) ++
      [(endPoi.lat, endPoi.lng)],
     acc.2.1 + segmentDistanceKm,
     acc.2.2 ++ [{ fromName := startPoi.name, toName := endPoi.name,
                   distanceKm := segmentDistanceKm }])

/-- One iteration of the app.js `calculateRoute` loop: resolve the two stop
ids of the indexed pair and apply `legContribution`, skipping the leg
(`continue`) when a lookup fails. -/
noncomputable def calcRouteStep (st : NavState)
    (acc : List (ℚ × ℚ) × ℝ × List RouteLeg) (iPair : ℕ × String × String) :
    List (ℚ × ℚ) × ℝ × List RouteLeg :=
  match st.pois.find? (fun p => p.id == iPair.2.1),
      st.pois.find? (fun p => p.id == iPair.2.2) with
  | some startPoi, some endPoi => legContribution st iPair.1 startPoi endPoi acc
  | _, _ => acc

/-- The geometric core of app.js `calculateRoute()`: filter the selected
stops, require at least two, then assemble `(allCoordinates, totalDistanceKm,
legs)` leg by leg; a leg whose stop ids do not resolve is skipped
(`continue`). -/
noncomputable def calculateRoute (st : NavState) (stops : List (Option String)) :
    Option (List (ℚ × ℚ) × ℝ × List RouteLeg) :=
  let validStops := stops.filterMap id
  if validStops.length < 2 then none
  else
    some ((validStops.zip validStops.tail).enum.foldl (calcRouteStep st)
      ([], 0, []))

/-- The coordinate sequence that one leg of app.js `calculateRoute` produces
in isolation: the water route's coordinate list when a non-fallback route is
found, the straight `[start, end]` pair on fallback or missing route, and
nothing when a stop id does not resolve. -/
noncomputable def legCoords (st : NavState) (s e : String) : List (ℚ × ℚ) :=
  match st.pois.find? (fun p => p.id == s),
      st.pois.find? (fun p => p.id == e) with
  | some sp, some ep =>
    match calculateWaterRoute st s e with
    | some r =>
      if !r.isFallback then r.coordinates
      else [(sp.lat, sp.lng), (ep.lat, ep.lng)]
    | none => [(sp.lat, sp.lng), (ep.lat, ep.lng)]
  | _, _ => []

/-- The per-leg coordinate sequences of a multi-stop itinerary, one per
consecutive pair of resolved stop ids. -/
noncomputable def legCoordsList (st : NavState) (ss : List String) :
    List (List (ℚ × ℚ)) :=
  (ss.zip ss.tail).map (fun pr => legCoords st pr.1 pr.2)

/-- Junction-deduplicating concatenation: the first leg's coordinates are
kept whole and every later leg drops its first coordinate (the junction it
shares with the previous leg). -/
def dedupConcat : List (List (ℚ × ℚ)) → List (ℚ × ℚ)
  | [] => []
  | l :: ls => l ++ (ls.map (fun t => t.drop 1)).flatten

/-! ### Vessel-setting mutator -/

/-- Modelled from the spec: `updateVesselSettings(draftMeters, marginMeters)`
is invoked from app.js (the "Apply vessel settings" button) but its
definition is not among the provided sources.  Per the spec's
vessel-setting-mutator contract it updates the vessel profile, invalidates
the cached grid (lazy rebuild on next use), and returns the new minimum safe
depth. -/
def updateVesselSettings (st : NavState) (draftMeters marginMeters : ℚ) :
    NavState × ℚ :=
  ({ st with vesselDraft := draftMeters, safetyMargin := marginMeters,
             waterGridCache := none },
   draftMeters + marginMeters)

/-! ### Concrete fixtures used by witnesses and counterexamples.
Boundaries, POIs and depth data are runtime-loaded inputs of the engine;
these model small data files. -/

/-- A small square water body (GeoJSON `(lng, lat)` ring order):
latitudes 43.99…44.01, longitudes -73.31…-73.29, no islands. -/
def wbSquare : WaterBody :=
  { name := "Test Lake",
    outer := [(-73.31, 43.99), (-73.29, 43.99), (-73.29, 44.01), (-73.31, 44.01)],
    holes := [] }

/-- A one-cell grid configuration whose single lattice point (44, -73.3)
falls inside `wbSquare` (values are exact multiples of `10^-6`). -/
def cfgTiny : GridConfig :=
  { latStep := 0.0018, lngStep := 0.0024,
    south := 44.0, north := 44.0, west := -73.3, east := -73.3 }

/-- A POI on land, 0.02° north of the test lake (≈ 2.2 km from the grid). -/
def poiLand : Poi :=
  { id := "land-poi", name := "Shore POI", lat := 44.02, lng := -73.3 }

/-- A POI exactly on the single water grid point. -/
def poiWater : Poi :=
  { id := "water-poi", name := "Mid-lake POI", lat := 44.0, lng := -73.3 }

/-- A third POI inside the test lake, distinct from the grid point. -/
def poiWater2 : Poi :=
  { id := "water-poi-2", name := "Mid-lake POI 2", lat := 44.005, lng := -73.295 }

/-- State with the tiny one-point grid loaded. -/
def stTiny : NavState :=
  { boundaries := some [wbSquare], depthGrid := fun _ => none,
    vesselDraft := 1.5, safetyMargin := 1.0, gridConfig := cfgTiny,
    pois := [poiLand, poiWater, poiWater2], waterGridCache := none }

/-- The single grid point generated for `stTiny`. -/
def gpTiny : GridPoint :=
  { id := 0, lat := 44.0, lng := -73.3, depth := none, row := 0, col := 0 }

/-- State with no boundary data (`WATER_BOUNDARIES === null`) but POIs
loaded: every `findPath` call returns "no path". -/
def stNoWater : NavState :=
  { boundaries := none, depthGrid := fun _ => none,
    vesselDraft := 1.5, safetyMargin := 1.0, gridConfig := GRID_CONFIG,
    pois := [poiLand, poiWater, poiWater2], waterGridCache := none }

end LakeGuide

namespace LakeGuide

/-! ### Theorems for claims C3 and C4 -/

/-- `pointInPolygonWithHoles` as a boolean combination of ray casts. -/
theorem pointInPolygonWithHoles_eq (lat lng : ℚ) (outerRing : List (ℚ × ℚ))
    (holeRings : List (List (ℚ × ℚ))) :
    pointInPolygonWithHoles lat lng outerRing holeRings =
      (pointInPolygon lat lng outerRing &&
        !(holeRings.any (fun hole => pointInPolygon lat lng hole))) := by
  unfold pointInPolygonWithHoles
  cases pointInPolygon lat lng outerRing <;>
    cases holeRings.any (fun hole => pointInPolygon lat lng hole) <;> rfl

/-- `pointInPolygonWithHoles` accepts exactly when the outer ring accepts and
no hole ring does. -/
theorem pointInPolygonWithHoles_eq_true_iff (lat lng : ℚ) (outerRing : List (ℚ × ℚ))
    (holeRings : List (List (ℚ × ℚ))) :
    pointInPolygonWithHoles lat lng outerRing holeRings = true ↔
      pointInPolygon lat lng outerRing = true ∧
        ∀ hole ∈ holeRings, pointInPolygon lat lng hole = false := by
  rw [pointInPolygonWithHoles_eq]
  simp [List.any_eq_true, Bool.not_eq_true]

/-- Claim C3: with a loaded boundary store, `isInWater` returns true iff some
water body's outer ring contains the point by ray casting and none of that
same body's hole rings contains it; bodies are tested independently and any
accepting body suffices. -/
theorem claim_C3_isInWater_iff (bodies : List WaterBody) (lat lng : ℚ) :
    isInWater (some bodies) lat lng = true ↔
      ∃ wb ∈ bodies,
        pointInPolygon lat lng (geoJsonToLatLng wb.outer) = true ∧
          ∀ hole ∈ wb.holes, pointInPolygon lat lng (geoJsonToLatLng hole) = false := by
  cases bodies with
  | nil => simp [isInWater]
  | cons b bs =>
    unfold isInWater
    simp only [List.isEmpty_cons, Bool.false_eq_true, if_false, List.any_eq_true,
      pointInPolygonWithHoles_eq_true_iff]
    constructor
    · rintro ⟨wb, hmem, houter, hholes⟩
      exact ⟨wb, hmem, houter,
        fun hole hh => hholes _ (List.mem_map_of_mem _ hh)⟩
    · rintro ⟨wb, hmem, houter, hholes⟩
      refine ⟨wb, hmem, houter, ?_⟩
      intro hole hh
      obtain ⟨h0, hh0, rfl⟩ := List.mem_map.mp hh
      exact hholes h0 hh0

/-- Claim C4: with no boundary data loaded (`null` store or zero water
bodies), every `isInWater` query fails closed. -/
theorem claim_C4_fails_closed (boundaries : Option (List WaterBody))
    (h : boundaries = none ∨ boundaries = some []) (lat lng : ℚ) :
    isInWater boundaries lat lng = false := by
  rcases h with h | h <;> subst h <;> simp [isInWater]

/-- Witness for C4 at concrete inputs: both the `null` store and the
zero-body store reject a point that lies inside Lake Champlain. -/
theorem claim_C4_fails_closed_witness :
    isInWater none 44.4 (-73.35) = false :=
  claim_C4_fails_closed none (Or.inl rfl) 44.4 (-73.35)

/-! ### Quantization lemmas and the grid containment invariant (claim C2) -/

/-- The source's `Math.round(q*1000000)/1000000` is the identity on integer
multiples of `10^-6`. -/
theorem round6_int_div {q : ℚ} {n : ℤ} (h : q = (n : ℚ) / 1000000) :
    round6 q = q := by
  subst h
  unfold round6
  rw [div_mul_cancel₀ _ (by norm_num : (1000000 : ℚ) ≠ 0), round_intCast]

/-- Lattice latitudes of an exact configuration survive quantization. -/
theorem latOf_exact {cfg : GridConfig} (h : cfgExact cfg) (k : ℕ) :
    round6 (latOf cfg k) = latOf cfg k := by
  obtain ⟨a, b, -, -, hs, hb, -, -⟩ := h
  refine round6_int_div (n := a + k * b) ?_
  unfold latOf
  rw [hs, hb]
  push_cast
  ring

/-- Lattice longitudes of an exact configuration survive quantization. -/
theorem lngOf_exact {cfg : GridConfig} (h : cfgExact cfg) (l : ℕ) :
    round6 (lngOf cfg l) = lngOf cfg l := by
  obtain ⟨-, -, c, d, -, -, hw, hd⟩ := h
  refine round6_int_div (n := c + l * d) ?_
  unfold lngOf
  rw [hw, hd]
  push_cast
  ring

/-- One `generateWaterGrid` loop iteration preserves the point invariant. -/
theorem gridStep_good (st : NavState) (acc : List GridPoint × ℕ) (cell : ℕ × ℕ)
    (hacc : ∀ p ∈ acc.1, GoodPoint st p) :
    ∀ p ∈ (gridStep st acc cell).1, GoodPoint st p := by
  intro p hp
  unfold gridStep at hp
  by_cases hw : isInWater st.boundaries (latOf st.gridConfig cell.1)
      (lngOf st.gridConfig cell.2) = true
  · rw [if_pos hw] at hp
    cases hd : st.depthGrid acc.2 with
    | none =>
      rw [hd] at hp
      dsimp only at hp
      rcases List.mem_append.mp hp with h | h
      · exact hacc p h
      · rw [List.mem_singleton] at h
        subst h
        exact ⟨⟨cell.1, cell.2, rfl, rfl, hw⟩,
          fun d hd' => absurd (hd ▸ hd') (by simp)⟩
    | some d0 =>
      rw [hd] at hp
      dsimp only at hp
      by_cases hlt : d0 < st.vesselDraft + st.safetyMargin
      · rw [if_pos hlt] at hp
        exact hacc p hp
      · rw [if_neg hlt] at hp
        rcases List.mem_append.mp hp with h | h
        · exact hacc p h
        · rw [List.mem_singleton] at h
          subst h
          refine ⟨⟨cell.1, cell.2, rfl, rfl, hw⟩, fun d hd' => ?_⟩
          have : d = d0 := by
            have := hd ▸ hd'
            exact (Option.some.inj this).symm
          subst this
          exact le_of_not_lt hlt
  · rw [if_neg hw] at hp
    exact hacc p hp

/-- Every point of a freshly built grid satisfies the invariant. -/
theorem buildWaterGrid_good (st : NavState) :
    ∀ p ∈ buildWaterGrid st, GoodPoint st p := by
  suffices h : ∀ (cs : List (ℕ × ℕ)) (acc : List GridPoint × ℕ),
      (∀ p ∈ acc.1, GoodPoint st p) →
        ∀ p ∈ (cs.foldl (gridStep st) acc).1, GoodPoint st p by
    exact h _ ([], 0) (by simp)
  intro cs
  induction cs with
  | nil => intro acc hacc; simpa using hacc
  | cons c cs ih => intro acc hacc; exact ih _ (gridStep_good st acc c hacc)

/-- A grid returned by `generateWaterGrid` with an empty cache is the freshly
built grid. -/
theorem generateWaterGrid_fresh {st : NavState}
    (hcache : st.waterGridCache = none) {grid : List GridPoint}
    (hg : generateWaterGrid st = some grid) : grid = buildWaterGrid st := by
  unfold generateWaterGrid at hg
  rw [hcache] at hg
  cases hb : st.boundaries with
  | none => rw [hb] at hg; cases hg
  | some bodies =>
    rw [hb] at hg
    dsimp only at hg
    by_cases he : bodies.isEmpty = true
    · rw [if_pos he] at hg; cases hg
    · rw [if_neg he] at hg; exact (Option.some.inj hg).symm

/-- Claim C2: with boundaries loaded, every grid point produced by a (fresh)
`generateWaterGrid` run lies in navigable water, and whenever the depth store
holds a sample for the point's cell id, that sample clears the minimum safe
depth `VESSEL_DRAFT + SAFETY_MARGIN`. -/
theorem claim_C2_grid_invariant (st : NavState) (hexact : cfgExact st.gridConfig)
    (hcache : st.waterGridCache = none) (grid : List GridPoint)
    (hg : generateWaterGrid st = some grid) :
    ∀ p ∈ grid, isInWater st.boundaries p.lat p.lng = true ∧
      ∀ d, st.depthGrid p.id = some d → minimumSafeDepth st ≤ d := by
  have hbuild : grid = buildWaterGrid st := generateWaterGrid_fresh hcache hg
  subst hbuild
  intro p hp
  obtain ⟨⟨k, l, hlat, hlng, hw⟩, hdep⟩ := buildWaterGrid_good st p hp
  refine ⟨?_, hdep⟩
  rw [hlat, hlng, latOf_exact hexact, lngOf_exact hexact]
  exact hw

/-! ### The haversine formula is the spherical angle metric (claim C5) -/

open Real

/-- A direction vector has unit dot square. -/
theorem dot3_self_sph (phi lam : ℝ) : dot3 (sph phi lam) (sph phi lam) = 1 := by
  unfold dot3 sph
  dsimp only
  linear_combination (cos phi ^ 2) * sin_sq_add_cos_sq lam + sin_sq_add_cos_sq phi

/-- Dot product of two direction vectors: the spherical law of cosines form. -/
theorem dot3_sph_sph (phi1 lam1 phi2 lam2 : ℝ) :
    dot3 (sph phi1 lam1) (sph phi2 lam2) =
      cos phi1 * cos phi2 * cos (lam1 - lam2) + sin phi1 * sin phi2 := by
  unfold dot3 sph
  dsimp only
  rw [cos_sub]
  ring

/-- Cauchy-Schwarz in ℝ³ via the Lagrange identity. -/
theorem dot3_sq_le (u v : ℝ × ℝ × ℝ) : dot3 u v ^ 2 ≤ dot3 u u * dot3 v v := by
  obtain ⟨a, b, c⟩ := u
  obtain ⟨d, e, f⟩ := v
  unfold dot3
  dsimp only
  nlinarith [sq_nonneg (a * e - b * d), sq_nonneg (a * f - c * d),
    sq_nonneg (b * f - c * e)]

/-- Spherical triangle inequality for the arccos angle between unit vectors. -/
theorem arccos_dot3_triangle (u v w : ℝ × ℝ × ℝ) (hu : dot3 u u = 1)
    (hv : dot3 v v = 1) (hw : dot3 w w = 1) :
    arccos (dot3 u w) ≤ arccos (dot3 u v) + arccos (dot3 v w) := by
  have hbound : ∀ x y : ℝ × ℝ × ℝ, dot3 x x = 1 → dot3 y y = 1 →
      -1 ≤ dot3 x y ∧ dot3 x y ≤ 1 := by
    intro x y hx hy
    have h := dot3_sq_le x y
    rw [hx, hy] at h
    constructor <;> nlinarith
  obtain ⟨huv1, huv2⟩ := hbound u v hu hv
  obtain ⟨hvw1, hvw2⟩ := hbound v w hv hw
  obtain ⟨huw1, huw2⟩ := hbound u w hu hw
  by_cases hcase : π ≤ arccos (dot3 u v) + arccos (dot3 v w)
  · exact le_trans (arccos_le_pi _) hcase
  · push_neg at hcase
    obtain ⟨u1, u2, u3⟩ := u
    obtain ⟨v1, v2, v3⟩ := v
    obtain ⟨w1, w2, w3⟩ := w
    set c1 := dot3 (u1, u2, u3) (v1, v2, v3) with hc1
    set c2 := dot3 (v1, v2, v3) (w1, w2, w3) with hc2
    -- components of u and w orthogonal to v
    have hCS := dot3_sq_le (u1 - c1 * v1, u2 - c1 * v2, u3 - c1 * v3)
      (w1 - c2 * v1, w2 - c2 * v2, w3 - c2 * v3)
    have e1 : dot3 (u1 - c1 * v1, u2 - c1 * v2, u3 - c1 * v3)
        (u1 - c1 * v1, u2 - c1 * v2, u3 - c1 * v3) = 1 - c1 ^ 2 := by
      unfold dot3 at hu hv hc1 ⊢
      dsimp only at hu hv hc1 ⊢
      linear_combination hu + c1 ^ 2 * hv + 2 * c1 * hc1
    have e2 : dot3 (w1 - c2 * v1, w2 - c2 * v2, w3 - c2 * v3)
        (w1 - c2 * v1, w2 - c2 * v2, w3 - c2 * v3) = 1 - c2 ^ 2 := by
      unfold dot3 at hw hv hc2 ⊢
      dsimp only at hw hv hc2 ⊢
      linear_combination hw + c2 ^ 2 * hv + 2 * c2 * hc2
    have e3 : dot3 (u1 - c1 * v1, u2 - c1 * v2, u3 - c1 * v3)
        (w1 - c2 * v1, w2 - c2 * v2, w3 - c2 * v3) =
          dot3 (u1, u2, u3) (w1, w2, w3) - c1 * c2 := by
      unfold dot3 at hv hc1 hc2 ⊢
      dsimp only at hv hc1 hc2 ⊢
      linear_combination c1 * c2 * hv + c2 * hc1 + c1 * hc2
    rw [e1, e2, e3] at hCS
    have h1 : (0 : ℝ) ≤ 1 - c1 ^ 2 := by nlinarith
    have h2 : (0 : ℝ) ≤ 1 - c2 ^ 2 := by nlinarith
    have habs : |dot3 (u1, u2, u3) (w1, w2, w3) - c1 * c2| ≤
        Real.sqrt (1 - c1 ^ 2) * Real.sqrt (1 - c2 ^ 2) := by
      rw [← Real.sqrt_sq_eq_abs, ← Real.sqrt_mul h1]
      exact Real.sqrt_le_sqrt hCS
    have hkey : cos (arccos c1 + arccos c2) ≤ dot3 (u1, u2, u3) (w1, w2, w3) := by
      rw [cos_add, cos_arccos huv1 huv2, cos_arccos hvw1 hvw2,
        sin_arccos, sin_arccos]
      have hneg := neg_abs_le (dot3 (u1, u2, u3) (w1, w2, w3) - c1 * c2)
      linarith [habs, hneg]
    have hmono : arccos (dot3 (u1, u2, u3) (w1, w2, w3)) ≤
        arccos (cos (arccos c1 + arccos c2)) := by
      apply Real.strictAntiOn_arccos.antitoneOn
      · exact ⟨neg_one_le_cos _, cos_le_one _⟩
      · exact ⟨huw1, huw2⟩
      · exact hkey
    rwa [arccos_cos (add_nonneg (arccos_nonneg _) (arccos_nonneg _))
      (le_of_lt hcase)] at hmono

/-- Half-angle form of the cosine double-angle identity. -/
theorem cos_eq_one_sub (x : ℝ) :
    cos x = 1 - 2 * (sin (x / 2) * sin (x / 2)) := by
  have h1 : cos (2 * (x / 2)) = 2 * cos (x / 2) ^ 2 - 1 := cos_two_mul _
  rw [show (2 : ℝ) * (x / 2) = x by ring] at h1
  have h2 := sin_sq_add_cos_sq (x / 2)
  linear_combination h1 + 2 * h2

/-- The `2*atan2(√a, √(1-a))` central-angle recovery of the haversine formula
equals `arccos (1 - 2a)` on `[0, 1]`. -/
theorem two_atan2_sqrt {a : ℝ} (h0 : 0 ≤ a) (h1 : a ≤ 1) :
    2 * atan2 (Real.sqrt a) (Real.sqrt (1 - a)) = arccos (1 - 2 * a) := by
  by_cases ha : a = 1
  · subst ha
    unfold atan2
    rw [show (1 : ℝ) - 1 = 0 by ring, Real.sqrt_zero, Real.sqrt_one]
    rw [if_neg (lt_irrefl 0), if_neg (lt_irrefl 0), if_pos one_pos]
    rw [show (1 : ℝ) - 2 * 1 = -1 by ring, arccos_neg_one]
    ring
  · have halt : a < 1 := lt_of_le_of_ne h1 ha
    have hx : 0 < Real.sqrt (1 - a) := Real.sqrt_pos.mpr (by linarith)
    unfold atan2
    rw [if_pos hx]
    have ht0 : 0 ≤ Real.sqrt a / Real.sqrt (1 - a) :=
      div_nonneg (Real.sqrt_nonneg _) (Real.sqrt_nonneg _)
    have harc0 : 0 ≤ arctan (Real.sqrt a / Real.sqrt (1 - a)) := by
      rw [← arctan_zero]
      exact arctan_strictMono.monotone ht0
    have hltp : arctan (Real.sqrt a / Real.sqrt (1 - a)) < π / 2 :=
      arctan_lt_pi_div_two _
    have hne : (1 : ℝ) - a ≠ 0 := by linarith
    have hcos : cos (2 * arctan (Real.sqrt a / Real.sqrt (1 - a))) = 1 - 2 * a := by
      rw [cos_two_mul, cos_arctan, div_pow, one_pow,
        Real.sq_sqrt (by positivity : (0 : ℝ) ≤
          1 + (Real.sqrt a / Real.sqrt (1 - a)) ^ 2),
        div_pow, Real.sq_sqrt h0, Real.sq_sqrt (by linarith : (0 : ℝ) ≤ 1 - a)]
      have hsum : 1 + a / (1 - a) = 1 / (1 - a) := by field_simp
      rw [hsum, one_div_one_div]
      ring
    rw [← hcos, arccos_cos (by linarith) (by linarith)]

/-- Cosine of an in-range latitude (in radians) is nonnegative. -/
theorem cos_rad_nonneg {lat : ℚ} (ha : -90 ≤ lat) (hb : lat ≤ 90) :
    0 ≤ cos ((lat : ℝ) * π / 180) := by
  have ha' : (-90 : ℝ) ≤ (lat : ℝ) := by exact_mod_cast ha
  have hb' : (lat : ℝ) ≤ 90 := by exact_mod_cast hb
  apply cos_nonneg_of_neg_pi_div_two_le_of_le <;> nlinarith [pi_pos]

/-- The haversine intermediate `a` is nonnegative on valid latitudes. -/
theorem havA_nonneg (lat1 lng1 lat2 lng2 : ℚ)
    (h1a : -90 ≤ lat1) (h1b : lat1 ≤ 90) (h2a : -90 ≤ lat2) (h2b : lat2 ≤ 90) :
    0 ≤ havA lat1 lng1 lat2 lng2 := by
  unfold havA
  have hc := mul_nonneg (cos_rad_nonneg h1a h1b) (cos_rad_nonneg h2a h2b)
  nlinarith [mul_self_nonneg (sin (((lat2 : ℝ) - (lat1 : ℝ)) * π / 180 / 2)),
    mul_self_nonneg (sin (((lng2 : ℝ) - (lng1 : ℝ)) * π / 180 / 2))]

/-- The haversine intermediate `a` is at most 1 on valid latitudes. -/
theorem havA_le_one (lat1 lng1 lat2 lng2 : ℚ)
    (h1a : -90 ≤ lat1) (h1b : lat1 ≤ 90) (h2a : -90 ≤ lat2) (h2b : lat2 ≤ 90) :
    havA lat1 lng1 lat2 lng2 ≤ 1 := by
  unfold havA
  rw [show ((lat2 : ℝ) - (lat1 : ℝ)) * π / 180 =
      (lat2 : ℝ) * π / 180 - (lat1 : ℝ) * π / 180 by ring]
  have hc := mul_nonneg (cos_rad_nonneg h1a h1b) (cos_rad_nonneg h2a h2b)
  have hs1 : sin (((lng2 : ℝ) - (lng1 : ℝ)) * π / 180 / 2) *
      sin (((lng2 : ℝ) - (lng1 : ℝ)) * π / 180 / 2) ≤ 1 := by
    nlinarith [sin_sq_add_cos_sq (((lng2 : ℝ) - (lng1 : ℝ)) * π / 180 / 2),
      mul_self_nonneg (cos (((lng2 : ℝ) - (lng1 : ℝ)) * π / 180 / 2))]
  have hA := cos_eq_one_sub ((lat2 : ℝ) * π / 180 - (lat1 : ℝ) * π / 180)
  have hC := cos_sub ((lat2 : ℝ) * π / 180) ((lat1 : ℝ) * π / 180)
  have hD := cos_add ((lat1 : ℝ) * π / 180) ((lat2 : ℝ) * π / 180)
  have hE := cos_le_one ((lat1 : ℝ) * π / 180 + (lat2 : ℝ) * π / 180)
  nlinarith [mul_le_of_le_one_right hc hs1]

/-- The haversine distance of in-range points is the Earth radius times the
central angle between their direction vectors. -/
theorem one_sub_two_havA (lat1 lng1 lat2 lng2 : ℚ) :
    1 - 2 * havA lat1 lng1 lat2 lng2 =
      dot3 (sph (rad lat1) (rad lng1)) (sph (rad lat2) (rad lng2)) := by
  rw [dot3_sph_sph]
  unfold havA rad
  rw [show ((lat2 : ℝ) - (lat1 : ℝ)) * π / 180 =
      (lat2 : ℝ) * π / 180 - (lat1 : ℝ) * π / 180 by ring,
    show ((lng2 : ℝ) - (lng1 : ℝ)) * π / 180 =
      (lng2 : ℝ) * π / 180 - (lng1 : ℝ) * π / 180 by ring]
  have hA := cos_eq_one_sub ((lat2 : ℝ) * π / 180 - (lat1 : ℝ) * π / 180)
  have hB := cos_eq_one_sub ((lng2 : ℝ) * π / 180 - (lng1 : ℝ) * π / 180)
  have hC := cos_sub ((lat2 : ℝ) * π / 180) ((lat1 : ℝ) * π / 180)
  have hD : cos ((lng1 : ℝ) * π / 180 - (lng2 : ℝ) * π / 180) =
      cos ((lng2 : ℝ) * π / 180 - (lng1 : ℝ) * π / 180) := by
    rw [← cos_neg ((lng2 : ℝ) * π / 180 - (lng1 : ℝ) * π / 180)]
    ring_nf
  linear_combination (-1 : ℝ) * hA -
    (cos ((lat1 : ℝ) * π / 180) * cos ((lat2 : ℝ) * π / 180)) * hB + hC -
    (cos ((lat1 : ℝ) * π / 180) * cos ((lat2 : ℝ) * π / 180)) * hD

/-- `haversineDistance` as the spherical angle metric. -/
theorem haversineDistance_eq_arccos (lat1 lng1 lat2 lng2 : ℚ)
    (h1a : -90 ≤ lat1) (h1b : lat1 ≤ 90) (h2a : -90 ≤ lat2) (h2b : lat2 ≤ 90) :
    haversineDistance lat1 lng1 lat2 lng2 =
      EARTH_RADIUS_KM *
        arccos (dot3 (sph (rad lat1) (rad lng1)) (sph (rad lat2) (rad lng2))) := by
  unfold haversineDistance
  rw [two_atan2_sqrt (havA_nonneg lat1 lng1 lat2 lng2 h1a h1b h2a h2b)
      (havA_le_one lat1 lng1 lat2 lng2 h1a h1b h2a h2b),
    one_sub_two_havA]

/-- Triangle inequality for the haversine distance on valid latitudes. -/
theorem haversineDistance_triangle (p q r : ℚ × ℚ)
    (hpa : -90 ≤ p.1) (hpb : p.1 ≤ 90) (hqa : -90 ≤ q.1) (hqb : q.1 ≤ 90)
    (hra : -90 ≤ r.1) (hrb : r.1 ≤ 90) :
    haversineDistance p.1 p.2 r.1 r.2 ≤
      haversineDistance p.1 p.2 q.1 q.2 + haversineDistance q.1 q.2 r.1 r.2 := by
  rw [haversineDistance_eq_arccos p.1 p.2 r.1 r.2 hpa hpb hra hrb,
    haversineDistance_eq_arccos p.1 p.2 q.1 q.2 hpa hpb hqa hqb,
    haversineDistance_eq_arccos q.1 q.2 r.1 r.2 hqa hqb hra hrb,
    ← mul_add]
  apply mul_le_mul_of_nonneg_left _ (by norm_num [EARTH_RADIUS_KM])
  exact arccos_dot3_triangle _ _ _ (dot3_self_sph _ _) (dot3_self_sph _ _)
    (dot3_self_sph _ _)

/-- Claim C5: the A* heuristic is admissible ignoring turn penalties — the
great-circle (haversine) distance from a point to the goal never exceeds the
summed great-circle edge lengths of any path to the goal.  Grid points always
have in-range latitudes, so the latitude hypotheses cover every grid path. -/
theorem claim_C5_heuristic_admissible (a g : ℚ × ℚ) (path : List (ℚ × ℚ))
    (ha : -90 ≤ a.1 ∧ a.1 ≤ 90) (hg : -90 ≤ g.1 ∧ g.1 ≤ 90)
    (hpath : ∀ p ∈ path, -90 ≤ p.1 ∧ p.1 ≤ 90) :
    haversineDistance a.1 a.2 g.1 g.2 ≤ polylineDistance (a :: path ++ [g]) := by
  induction path generalizing a with
  | nil =>
    simp only [List.nil_append, polylineDistance]
    simp
  | cons q rest ih =>
    have hq : -90 ≤ q.1 ∧ q.1 ≤ 90 := hpath q (List.mem_cons_self q rest)
    have hrest : ∀ p ∈ rest, -90 ≤ p.1 ∧ p.1 ≤ 90 :=
      fun p hp => hpath p (List.mem_cons_of_mem q hp)
    have step := ih q hq hrest
    have htri := haversineDistance_triangle a q g ha.1 ha.2 hq.1 hq.2 hg.1 hg.2
    calc haversineDistance a.1 a.2 g.1 g.2
        ≤ haversineDistance a.1 a.2 q.1 q.2 +
            haversineDistance q.1 q.2 g.1 g.2 := htri
      _ ≤ haversineDistance a.1 a.2 q.1 q.2 +
            polylineDistance (q :: rest ++ [g]) := by linarith
      _ = polylineDistance (a :: (q :: rest) ++ [g]) := rfl

/-- Witness for C5 at a concrete two-edge grid path near Lake Champlain. -/
theorem claim_C5_heuristic_admissible_witness :
    haversineDistance 44 (-73.3) 44.2 (-73.3) ≤
      polylineDistance [(44, -73.3), (44.1, -73.2), (44.2, -73.3)] :=
  claim_C5_heuristic_admissible (44, -73.3) (44.2, -73.3) [(44.1, -73.2)]
    (by norm_num) (by norm_num)
    (by intro p hp; simp only [List.mem_singleton] at hp; subst hp; norm_num)

/-- The tiny test configuration is `10^-6`-exact. -/
theorem cfgExact_cfgTiny : cfgExact cfgTiny :=
  ⟨44000000, 1800, -73300000, 2400, by norm_num [cfgTiny], by norm_num [cfgTiny],
    by norm_num [cfgTiny], by norm_num [cfgTiny]⟩

/-- The shipped `GRID_CONFIG` is `10^-6`-exact. -/
theorem cfgExact_GRID_CONFIG : cfgExact GRID_CONFIG :=
  ⟨43530000, 1800, -73520000, 2400, by norm_num [GRID_CONFIG],
    by norm_num [GRID_CONFIG], by norm_num [GRID_CONFIG], by norm_num [GRID_CONFIG]⟩

/-- Witness for C2: the invariant applied to a concrete one-body store over
the tiny exact grid configuration. -/
theorem claim_C2_grid_invariant_witness :
    cfgExact stTiny.gridConfig ∧
      (∀ p ∈ buildWaterGrid stTiny,
        isInWater stTiny.boundaries p.lat p.lng = true ∧
          ∀ d, stTiny.depthGrid p.id = some d → minimumSafeDepth stTiny ≤ d) :=
  ⟨cfgExact_cfgTiny,
    claim_C2_grid_invariant stTiny cfgExact_cfgTiny rfl (buildWaterGrid stTiny) rfl⟩

/-! ### Vessel-profile invalidation (claim C9; `updateVesselSettings` is
modelled from the spec, since only its app.js caller is in the sources) -/

/-- Claim C9: changing the vessel profile invalidates the cached grid; the
lazily rebuilt grid is consistent with the new `minimumSafeDepth` — no
retained point has a known depth below `draft + margin`. -/
theorem claim_C9_profile_invalidates_grid (st st' : NavState) (d m minDepth : ℚ)
    (hupd : updateVesselSettings st d m = (st', minDepth))
    (hexact : cfgExact st'.gridConfig) :
    st'.waterGridCache = none ∧ minDepth = d + m ∧
      ∀ grid, generateWaterGrid st' = some grid →
        ∀ p ∈ grid, isInWater st'.boundaries p.lat p.lng = true ∧
          ∀ dep, st'.depthGrid p.id = some dep → d + m ≤ dep := by
  have h1 : st' = (updateVesselSettings st d m).1 := (congrArg Prod.fst hupd).symm
  have h2 : minDepth = (updateVesselSettings st d m).2 := (congrArg Prod.snd hupd).symm
  subst h1
  refine ⟨rfl, h2.trans rfl, ?_⟩
  intro grid hg p hp
  have hbuild := @generateWaterGrid_fresh ((updateVesselSettings st d m).1) rfl grid hg
  subst hbuild
  obtain ⟨⟨k, l, hlat, hlng, hw⟩, hdep⟩ := buildWaterGrid_good _ p hp
  constructor
  · rw [hlat, hlng, latOf_exact hexact, lngOf_exact hexact]
    exact hw
  · intro dep hd
    exact hdep dep hd

/-- Witness for C9 at a concrete profile change on the tiny state. -/
theorem claim_C9_profile_invalidates_grid_witness :
    (updateVesselSettings stTiny 2 0.5).1.waterGridCache = none ∧
      (updateVesselSettings stTiny 2 0.5).2 = 2 + 0.5 ∧
      ∀ grid, generateWaterGrid (updateVesselSettings stTiny 2 0.5).1 = some grid →
        ∀ p ∈ grid,
          isInWater (updateVesselSettings stTiny 2 0.5).1.boundaries
            p.lat p.lng = true ∧
          ∀ dep, (updateVesselSettings stTiny 2 0.5).1.depthGrid p.id = some dep →
            2 + 0.5 ≤ dep :=
  claim_C9_profile_invalidates_grid stTiny (updateVesselSettings stTiny 2 0.5).1
    2 0.5 (updateVesselSettings stTiny 2 0.5).2 rfl cfgExact_cfgTiny

/-! ### Degenerate same-stop route (claim C10) -/

/-- Claim C10: requesting a route from a POI to itself returns a
zero-distance route holding exactly that POI's coordinate, with an empty
grid-point trail and no `isFallback` flag — not an error. -/
theorem claim_C10_same_stop (st : NavState) (poiId : String) (poi : Poi)
    (hfind : st.pois.find? (fun p => p.id == poiId) = some poi) :
    calculateWaterRoute st poiId poiId =
      some { coordinates := [(poi.lat, poi.lng)], distance := 0, path := [] } := by
  unfold calculateWaterRoute
  rw [hfind]
  simp

/-- Witness for C10 at a concrete POI. -/
theorem claim_C10_same_stop_witness :
    calculateWaterRoute stTiny "water-poi" "water-poi" =
      some { coordinates := [(poiWater.lat, poiWater.lng)], distance := 0,
             path := [] } :=
  claim_C10_same_stop stTiny "water-poi" poiWater rfl

/-! ### A quantitative haversine upper bound for nearby points -/

/-- `arctan` is below the identity on nonnegative reals. -/
theorem arctan_le_self {x : ℝ} (hx : 0 ≤ x) : arctan x ≤ x := by
  rcases eq_or_lt_of_le hx with h | h
  · rw [← h, arctan_zero]
  · have h1 : 0 < arctan x := by
      rw [← arctan_zero]
      exact arctan_strictMono h
    have h2 := lt_tan h1 (arctan_lt_pi_div_two x)
    rw [tan_arctan] at h2
    exact le_of_lt h2

set_option maxHeartbeats 1000000 in
/-- For points at most one degree apart (sum of coordinate deltas), the
haversine distance is at most `158 km` per degree of total delta — enough to
discharge the 5 km snap-radius guard concretely. -/
theorem haversineDistance_le_small (lat1 lng1 lat2 lng2 : ℚ)
    (h1a : -90 ≤ lat1) (h1b : lat1 ≤ 90) (h2a : -90 ≤ lat2) (h2b : lat2 ≤ 90)
    (hsmall : |lat2 - lat1| + |lng2 - lng1| ≤ 1) :
    haversineDistance lat1 lng1 lat2 lng2 ≤
      158 * ((|lat2 - lat1| + |lng2 - lng1| : ℚ) : ℝ) := by
  set s : ℝ := ((|lat2 - lat1| + |lng2 - lng1| : ℚ) : ℝ) with hs_def
  have hsum : |(lat2 : ℝ) - (lat1 : ℝ)| + |(lng2 : ℝ) - (lng1 : ℝ)| = s := by
    rw [hs_def]
    push_cast
    ring
  have hs0 : 0 ≤ s := by
    rw [← hsum]
    positivity
  have hs1 : s ≤ 1 := by
    rw [hs_def]
    exact_mod_cast hsmall
  have hA0 := havA_nonneg lat1 lng1 lat2 lng2 h1a h1b h2a h2b
  have hsq : ((lat2 : ℝ) - (lat1 : ℝ)) ^ 2 + ((lng2 : ℝ) - (lng1 : ℝ)) ^ 2 ≤
      s ^ 2 := by
    have hm := mul_nonneg (abs_nonneg ((lat2 : ℝ) - (lat1 : ℝ)))
      (abs_nonneg ((lng2 : ℝ) - (lng1 : ℝ)))
    nlinarith [sq_abs ((lat2 : ℝ) - (lat1 : ℝ)), sq_abs ((lng2 : ℝ) - (lng1 : ℝ)),
      hsum]
  have hA_le : havA lat1 lng1 lat2 lng2 ≤ (π / 360) ^ 2 * s ^ 2 := by
    unfold havA
    have e1 := sin_sq_le_sq (x := ((lat2 : ℝ) - (lat1 : ℝ)) * π / 180 / 2)
    have e2 := sin_sq_le_sq (x := ((lng2 : ℝ) - (lng1 : ℝ)) * π / 180 / 2)
    have hc1 := cos_le_one ((lat1 : ℝ) * π / 180)
    have hc1' := cos_rad_nonneg h1a h1b
    have hc2 := cos_le_one ((lat2 : ℝ) * π / 180)
    have hc2' := cos_rad_nonneg h2a h2b
    have hπ2 : (0 : ℝ) ≤ π ^ 2 := sq_nonneg π
    have hmul := mul_le_mul_of_nonneg_right hsq (by positivity : (0 : ℝ) ≤ π ^ 2 / 129600)
    nlinarith [e1, e2, sq_nonneg (sin (((lng2 : ℝ) - (lng1 : ℝ)) * π / 180 / 2)),
      mul_nonneg hc1' hc2',
      mul_le_one₀ hc1 hc2' hc2,
      sq_nonneg ((lng2 : ℝ) - (lng1 : ℝ))]
  have hs2 : s ^ 2 ≤ 1 := by nlinarith
  have ha_half : havA lat1 lng1 lat2 lng2 ≤ 1 / 2 := by
    have hπ : π < 3.15 := pi_lt_d2
    nlinarith [hA_le, pi_pos]
  unfold haversineDistance atan2
  set a := havA lat1 lng1 lat2 lng2 with ha_def
  have hx : 0 < Real.sqrt (1 - a) := Real.sqrt_pos.mpr (by linarith)
  rw [if_pos hx]
  have ht0 : 0 ≤ Real.sqrt a / Real.sqrt (1 - a) :=
    div_nonneg (Real.sqrt_nonneg _) (Real.sqrt_nonneg _)
  have harctan := arctan_le_self ht0
  have h21 : (1 : ℝ) ≤ Real.sqrt 2 * Real.sqrt (1 - a) := by
    rw [← Real.sqrt_mul (by norm_num : (0 : ℝ) ≤ 2)]
    calc (1 : ℝ) = Real.sqrt 1 := Real.sqrt_one.symm
      _ ≤ Real.sqrt (2 * (1 - a)) := Real.sqrt_le_sqrt (by linarith)
  have hta : Real.sqrt a / Real.sqrt (1 - a) ≤ Real.sqrt 2 * Real.sqrt a := by
    rw [div_le_iff₀ hx]
    have hm := mul_le_mul_of_nonneg_left h21 (Real.sqrt_nonneg a)
    calc Real.sqrt a = Real.sqrt a * 1 := (mul_one _).symm
      _ ≤ Real.sqrt a * (Real.sqrt 2 * Real.sqrt (1 - a)) := hm
      _ = Real.sqrt 2 * Real.sqrt a * Real.sqrt (1 - a) := by ring
  have hsq_a : Real.sqrt a ≤ π / 360 * s := by
    have h := Real.sqrt_le_sqrt hA_le
    rwa [show (π / 360) ^ 2 * s ^ 2 = (π / 360 * s) ^ 2 by ring,
      Real.sqrt_sq (by positivity)] at h
  have hsqrt2 : Real.sqrt 2 ≤ 1.415 := by
    nlinarith [Real.sq_sqrt (by norm_num : (0 : ℝ) ≤ 2), Real.sqrt_nonneg 2]
  have hπ : π ≤ 3.15 := le_of_lt pi_lt_d2
  have hchain : arctan (Real.sqrt a / Real.sqrt (1 - a)) ≤
      1.415 * (3.15 / 360 * s) := by
    have step3 : Real.sqrt 2 * Real.sqrt a ≤ Real.sqrt 2 * (π / 360 * s) :=
      mul_le_mul_of_nonneg_left hsq_a (Real.sqrt_nonneg 2)
    have hinner : π / 360 * s ≤ 3.15 / 360 * s :=
      mul_le_mul_of_nonneg_right (by linarith) hs0
    have hinner0 : 0 ≤ π / 360 * s := by positivity
    have step4 : Real.sqrt 2 * (π / 360 * s) ≤ 1.415 * (3.15 / 360 * s) :=
      mul_le_mul hsqrt2 hinner hinner0 (by norm_num)
    linarith
  calc EARTH_RADIUS_KM * (2 * arctan (Real.sqrt a / Real.sqrt (1 - a)))
      ≤ EARTH_RADIUS_KM * (2 * (1.415 * (3.15 / 360 * s))) := by
        apply mul_le_mul_of_nonneg_left _ (by norm_num [EARTH_RADIUS_KM])
        linarith
    _ ≤ 158 * s := by
        unfold EARTH_RADIUS_KM
        nlinarith

/-! ### Evaluation lemmas for the found-path branch -/

/-- Smoothing is shipped disabled, so `smoothPath` returns its input. -/
theorem smoothPath_disabled (boundaries : Option (List WaterBody))
    (path : List (ℚ × ℚ)) :
    smoothPath boundaries path =
      { smoothed := path, originalWaypoints := path.length,
        smoothedWaypoints := path.length, method := "none", landIssues := 0 } := by
  unfold smoothPath
  rw [if_pos (by simp [ROUTING_CONFIG])]

/-- A found-path leg is never flagged as fallback. -/
theorem successRouteResult_isFallback (b : Option (List WaterBody))
    (poi1 poi2 : Poi) (fp : List GridPoint) :
    (successRouteResult b poi1 poi2 fp).isFallback = false := rfl

/-- A found-path leg's coordinates are the raw POI endpoints around the grid
waypoints (smoothing is disabled). -/
theorem successRouteResult_coordinates (b : Option (List WaterBody))
    (poi1 poi2 : Poi) (fp : List GridPoint) :
    (successRouteResult b poi1 poi2 fp).coordinates =
      rawRouteCoords poi1 poi2 fp := by
  unfold successRouteResult
  dsimp only
  rw [smoothPath_disabled]

/-- A found-path leg's grid-point id trail. -/
theorem successRouteResult_path (b : Option (List WaterBody))
    (poi1 poi2 : Poi) (fp : List GridPoint) :
    (successRouteResult b poi1 poi2 fp).path = fp.map (fun p => p.id) := rfl

/-- A found-path leg's distance: both snap spurs plus the polyline length of
the final coordinate sequence. -/
theorem successRouteResult_distance (b : Option (List WaterBody))
    (poi1 poi2 : Poi) (fp : List GridPoint) :
    (successRouteResult b poi1 poi2 fp).distance =
      spurStartDist poi1 fp + spurEndDist poi2 fp +
        polylineDistance (successRouteResult b poi1 poi2 fp).coordinates := by
  rw [successRouteResult_coordinates]
  unfold successRouteResult
  dsimp only
  rw [smoothPath_disabled]

/-- The found-path branch of `calculateWaterRoute`, as an equation. -/
theorem calcWaterRoute_success (st : NavState) (p1 p2 : String)
    (poi1 poi2 : Poi)
    (h1 : st.pois.find? (fun p => p.id == p1) = some poi1)
    (h2 : st.pois.find? (fun p => p.id == p2) = some poi2)
    (hne : p1 ≠ p2) (finalPath : List GridPoint) (dist : ℝ)
    (hfp : findPath st poi1.lat poi1.lng poi2.lat poi2.lng =
      some (finalPath, dist)) :
    calculateWaterRoute st p1 p2 =
      some (successRouteResult st.boundaries poi1 poi2 finalPath) := by
  unfold calculateWaterRoute
  rw [h1, h2]
  dsimp only
  rw [if_neg (by simpa using hne), hfp]

/-! ### Concrete evaluation of the tiny one-point fixture -/

/-- Ray casting accepts the lattice point (44, -73.3) of the test square. -/
theorem pip_tiny_in :
    pointInPolygon 44 (-73.3)
      [(43.99, -73.31), (43.99, -73.29), (44.01, -73.29), (44.01, -73.31)] =
      true := by
  unfold pointInPolygon
  rw [show pipEdges
      [((43.99 : ℚ), (-73.31 : ℚ)), (43.99, -73.29), (44.01, -73.29), (44.01, -73.31)] =
      [((43.99, -73.31), (44.01, -73.31)), ((43.99, -73.29), (43.99, -73.31)),
       ((44.01, -73.29), (43.99, -73.29)), ((44.01, -73.31), (44.01, -73.29))]
    from rfl]
  simp only [List.foldl_cons, List.foldl_nil]
  rw [show pipStep 44 (-73.3) false ((43.99, -73.31), (44.01, -73.31)) = false
      from by unfold pipStep; dsimp only; rw [if_neg (by norm_num)]]
  rw [show pipStep 44 (-73.3) false ((43.99, -73.29), (43.99, -73.31)) = false
      from by unfold pipStep; dsimp only; rw [if_neg (by norm_num)]]
  rw [show pipStep 44 (-73.3) false ((44.01, -73.29), (43.99, -73.29)) = true
      from by unfold pipStep; dsimp only; rw [if_pos (by norm_num)]; rfl]
  rw [show pipStep 44 (-73.3) true ((44.01, -73.31), (44.01, -73.29)) = true
      from by unfold pipStep; dsimp only; rw [if_neg (by norm_num)]]

/-- Ray casting rejects the shore POI (44.02, -73.3), north of the square. -/
theorem pip_tiny_out :
    pointInPolygon 44.02 (-73.3)
      [(43.99, -73.31), (43.99, -73.29), (44.01, -73.29), (44.01, -73.31)] =
      false := by
  unfold pointInPolygon
  rw [show pipEdges
      [((43.99 : ℚ), (-73.31 : ℚ)), (43.99, -73.29), (44.01, -73.29), (44.01, -73.31)] =
      [((43.99, -73.31), (44.01, -73.31)), ((43.99, -73.29), (43.99, -73.31)),
       ((44.01, -73.29), (43.99, -73.29)), ((44.01, -73.31), (44.01, -73.29))]
    from rfl]
  simp only [List.foldl_cons, List.foldl_nil]
  rw [show pipStep 44.02 (-73.3) false ((43.99, -73.31), (44.01, -73.31)) = false
      from by unfold pipStep; dsimp only; rw [if_neg (by norm_num)]]
  rw [show pipStep 44.02 (-73.3) false ((43.99, -73.29), (43.99, -73.31)) = false
      from by unfold pipStep; dsimp only; rw [if_neg (by norm_num)]]
  rw [show pipStep 44.02 (-73.3) false ((44.01, -73.29), (43.99, -73.29)) = false
      from by unfold pipStep; dsimp only; rw [if_neg (by norm_num)]]
  rw [show pipStep 44.02 (-73.3) false ((44.01, -73.31), (44.01, -73.29)) = false
      from by unfold pipStep; dsimp only; rw [if_neg (by norm_num)]]

/-- The lattice point of the tiny grid is in the test lake. -/
theorem isInWater_tiny_in : isInWater stTiny.boundaries 44 (-73.3) = true := by
  show isInWater (some [wbSquare]) 44 (-73.3) = true
  unfold isInWater
  dsimp only
  rw [if_neg (by decide : ¬(([wbSquare] : List WaterBody).isEmpty = true))]
  simp only [List.any_cons, List.any_nil, Bool.or_false]
  show pointInPolygonWithHoles 44 (-73.3)
    [(43.99, -73.31), (43.99, -73.29), (44.01, -73.29), (44.01, -73.31)] [] = true
  unfold pointInPolygonWithHoles
  rw [pip_tiny_in]
  rfl

/-- The shore POI is on land. -/
theorem isInWater_tiny_out :
    isInWater stTiny.boundaries 44.02 (-73.3) = false := by
  show isInWater (some [wbSquare]) 44.02 (-73.3) = false
  unfold isInWater
  dsimp only
  rw [if_neg (by decide : ¬(([wbSquare] : List WaterBody).isEmpty = true))]
  simp only [List.any_cons, List.any_nil, Bool.or_false]
  show pointInPolygonWithHoles 44.02 (-73.3)
    [(43.99, -73.31), (43.99, -73.29), (44.01, -73.29), (44.01, -73.31)] [] = false
  unfold pointInPolygonWithHoles
  rw [pip_tiny_out]
  rfl

/-- The tiny bounds span a single lattice row. -/
theorem rowCount_tiny : rowCount cfgTiny = 1 := by
  unfold rowCount
  rw [if_pos (by norm_num [cfgTiny]),
    show ((cfgTiny.north - cfgTiny.south) / cfgTiny.latStep : ℚ) = 0
      by norm_num [cfgTiny],
    Int.floor_zero]
  rfl

/-- The tiny bounds span a single lattice column. -/
theorem colCount_tiny : colCount cfgTiny = 1 := by
  unfold colCount
  rw [if_pos (by norm_num [cfgTiny]),
    show ((cfgTiny.east - cfgTiny.west) / cfgTiny.lngStep : ℚ) = 0
      by norm_num [cfgTiny],
    Int.floor_zero]
  rfl

/-- The tiny lattice is the single cell `(0, 0)`. -/
theorem cells_tiny : cells cfgTiny = [(0, 0)] := by
  unfold cells
  rw [rowCount_tiny, colCount_tiny]
  rfl

/-- Latitude of the single lattice cell. -/
theorem latOf_tiny : latOf cfgTiny 0 = 44 := by
  unfold latOf
  norm_num [cfgTiny]

/-- Longitude of the single lattice cell. -/
theorem lngOf_tiny : lngOf cfgTiny 0 = -73.3 := by
  unfold lngOf
  norm_num [cfgTiny]

/-- The generated grid of the tiny state is the single point `gpTiny`. -/
theorem buildWaterGrid_tiny : buildWaterGrid stTiny = [gpTiny] := by
  unfold buildWaterGrid
  rw [show stTiny.gridConfig = cfgTiny from rfl, cells_tiny]
  simp only [List.foldl_cons, List.foldl_nil]
  unfold gridStep
  dsimp only
  rw [show stTiny.gridConfig = cfgTiny from rfl, latOf_tiny, lngOf_tiny,
    if_pos isInWater_tiny_in, show stTiny.depthGrid 0 = none from rfl]
  dsimp only
  rw [round6_int_div (n := 44000000) (by norm_num),
    round6_int_div (n := -73300000) (by norm_num)]
  norm_num [gpTiny, cfgTiny]

/-- `generateWaterGrid` on the tiny state. -/
theorem generateWaterGrid_tiny : generateWaterGrid stTiny = some [gpTiny] := by
  unfold generateWaterGrid
  rw [show stTiny.waterGridCache = none from rfl]
  dsimp only
  rw [show stTiny.boundaries = some [wbSquare] from rfl]
  dsimp only
  rw [if_neg (by decide : ¬(([wbSquare] : List WaterBody).isEmpty = true)),
    buildWaterGrid_tiny]

/-- Every nearest-grid-point query on the tiny state returns the single
point. -/
theorem findNearest_tiny (lat lng : ℚ) :
    findNearestGridPoint stTiny lat lng = some gpTiny := by
  unfold findNearestGridPoint
  rw [generateWaterGrid_tiny]
  dsimp only
  rw [if_neg (by decide : ¬(([gpTiny] : List GridPoint).isEmpty = true))]
  unfold scanNearest
  simp only [List.foldl_cons, List.foldl_nil]
  rfl

/-- A* on a one-point grid where start and goal snap to the same point:
immediate success with a single-waypoint path of length 0. -/
theorem astarLoop_singleton (grid : List GridPoint) (pb : ℕ → Option GridPoint)
    (p : GridPoint) (fuel : ℕ) (g f : ℕ → WithTop ℝ) (hf : f p.id < ⊤) :
    astarLoop grid pb p (fuel + 1) [p] (fun _ => none) g f [] = some ([p], 0) := by
  unfold astarLoop
  rw [if_neg (by simp : ¬(([p] : List GridPoint).isEmpty = true))]
  have hpick : astarPick f [p] = some p := by
    unfold astarPick
    simp only [List.foldl_cons, List.foldl_nil]
    rw [if_pos hf]
    rfl
  rw [hpick]
  dsimp only
  rw [if_pos rfl]
  have hrec : reconstructPath pb (fun _ => none) grid.length p.id [p] = [p] := by
    cases grid.length with
    | zero => rfl
    | succ n => rfl
  rw [hrec]
  rfl

/-- The snap spur from the shore POI to the tiny grid point is under the 5 km
search radius. -/
theorem snap_land_tiny :
    ¬ (haversineDistance poiLand.lat poiLand.lng gpTiny.lat gpTiny.lng >
        ((MAX_GRID_SEARCH_DISTANCE_KM : ℚ) : ℝ)) := by
  rw [not_lt]
  have h := haversineDistance_le_small poiLand.lat poiLand.lng gpTiny.lat
    gpTiny.lng (by norm_num [poiLand]) (by norm_num [poiLand])
    (by norm_num [gpTiny]) (by norm_num [gpTiny])
    (by norm_num [poiLand, gpTiny, abs_of_nonpos, abs_of_nonneg])
  have he : ((|gpTiny.lat - poiLand.lat| + |gpTiny.lng - poiLand.lng| : ℚ) : ℝ) =
      ((0.02 : ℚ) : ℝ) := by
    norm_num [poiLand, gpTiny, abs_of_nonpos, abs_of_nonneg]
  rw [he] at h
  have : (158 : ℝ) * ((0.02 : ℚ) : ℝ) ≤ ((MAX_GRID_SEARCH_DISTANCE_KM : ℚ) : ℝ) := by
    norm_num [MAX_GRID_SEARCH_DISTANCE_KM]
  linarith

/-- The mid-lake POI sits exactly on the tiny grid point. -/
theorem snap_water_tiny :
    ¬ (haversineDistance poiWater.lat poiWater.lng gpTiny.lat gpTiny.lng >
        ((MAX_GRID_SEARCH_DISTANCE_KM : ℚ) : ℝ)) := by
  rw [not_lt]
  have h := haversineDistance_le_small poiWater.lat poiWater.lng gpTiny.lat
    gpTiny.lng (by norm_num [poiWater]) (by norm_num [poiWater])
    (by norm_num [gpTiny]) (by norm_num [gpTiny])
    (by norm_num [poiWater, gpTiny, abs_of_nonpos, abs_of_nonneg])
  have he : ((|gpTiny.lat - poiWater.lat| + |gpTiny.lng - poiWater.lng| : ℚ) : ℝ) =
      ((0 : ℚ) : ℝ) := by
    norm_num [poiWater, gpTiny, abs_of_nonpos, abs_of_nonneg]
  rw [he] at h
  have : (158 : ℝ) * ((0 : ℚ) : ℝ) ≤ ((MAX_GRID_SEARCH_DISTANCE_KM : ℚ) : ℝ) := by
    norm_num [MAX_GRID_SEARCH_DISTANCE_KM]
  linarith

/-- `findPath` from the shore POI to the mid-lake POI over the tiny state:
both endpoints snap to the single grid point, and A* returns the one-point
path. -/
theorem findPath_tiny :
    findPath stTiny poiLand.lat poiLand.lng poiWater.lat poiWater.lng =
      some ([gpTiny], 0) := by
  unfold findPath
  rw [if_neg (by norm_num [poiLand, poiWater])]
  rw [generateWaterGrid_tiny]
  dsimp only
  rw [if_neg (by decide : ¬(([gpTiny] : List GridPoint).isEmpty = true))]
  rw [findNearest_tiny, findNearest_tiny]
  dsimp only
  rw [if_neg snap_land_tiny, if_neg snap_water_tiny]
  refine astarLoop_singleton [gpTiny] _ gpTiny ([gpTiny] : List GridPoint).length
    _ _ ?_
  simp

/-- `calculateWaterRoute` over the tiny state: a grid path is found. -/
theorem calcWaterRoute_tiny :
    calculateWaterRoute stTiny "land-poi" "water-poi" =
      some (successRouteResult stTiny.boundaries poiLand poiWater [gpTiny]) :=
  calcWaterRoute_success stTiny "land-poi" "water-poi" poiLand poiWater rfl rfl
    (by decide) [gpTiny] 0 findPath_tiny

/-! ### Claim C1: the raw POI endpoints are copied into the final output
unvalidated, so the all-coordinates-in-water guarantee fails at them. -/

/-- Counterexample to claim C1: the tiny route is a found water path
(`isFallback = false`, nonempty grid trail), yet its first output coordinate
is the raw shore POI, which `isInWater` rejects. -/
theorem claim_C1_counterexample :
    ∃ r, calculateWaterRoute stTiny "land-poi" "water-poi" = some r ∧
      r.isFallback = false ∧ r.path = [0] ∧
      r.coordinates.head? = some (44.02, -73.3) ∧
      ¬ (∀ c ∈ r.coordinates, isInWater stTiny.boundaries c.1 c.2 = true) := by
  refine ⟨successRouteResult stTiny.boundaries poiLand poiWater [gpTiny],
    calcWaterRoute_tiny, successRouteResult_isFallback _ _ _ _, ?_, ?_, ?_⟩
  · rw [successRouteResult_path]
    rfl
  · rw [successRouteResult_coordinates]
    rfl
  · intro hall
    have hmem : ((44.02 : ℚ), (-73.3 : ℚ)) ∈
        (successRouteResult stTiny.boundaries poiLand poiWater [gpTiny]).coordinates := by
      rw [successRouteResult_coordinates]
      exact List.mem_cons_self _ _
    have h := hall _ hmem
    rw [isInWater_tiny_out] at h
    cases h

/-! ### Leg distance accounting (claim C8) -/

/-- Claim C8: a grid-routed leg's reported distance is the snap spur from the
start stop to its snapped grid point, plus the snap spur from the end stop to
its snapped grid point, plus the sum of the segment distances along the leg's
final coordinate sequence — each term accumulated exactly once (note the
coordinate sequence itself begins and ends with the raw POI coordinates). -/
theorem claim_C8_leg_distance (st : NavState) (p1 p2 : String)
    (poi1 poi2 : Poi)
    (h1 : st.pois.find? (fun p => p.id == p1) = some poi1)
    (h2 : st.pois.find? (fun p => p.id == p2) = some poi2)
    (hne : p1 ≠ p2) (fp : List GridPoint) (dist : ℝ)
    (hfp : findPath st poi1.lat poi1.lng poi2.lat poi2.lng = some (fp, dist))
    (r : RouteResult) (hr : calculateWaterRoute st p1 p2 = some r) :
    r.distance = spurStartDist poi1 fp + spurEndDist poi2 fp +
      polylineDistance r.coordinates := by
  have heq := calcWaterRoute_success st p1 p2 poi1 poi2 h1 h2 hne fp dist hfp
  rw [heq] at hr
  obtain rfl := Option.some.inj hr
  exact successRouteResult_distance _ _ _ _

/-- Witness for C8 on the tiny found-path route. -/
theorem claim_C8_leg_distance_witness :
    (successRouteResult stTiny.boundaries poiLand poiWater [gpTiny]).distance =
      spurStartDist poiLand [gpTiny] + spurEndDist poiWater [gpTiny] +
        polylineDistance (successRouteResult stTiny.boundaries poiLand poiWater
          [gpTiny]).coordinates :=
  claim_C8_leg_distance stTiny "land-poi" "water-poi" poiLand poiWater rfl rfl
    (by decide) [gpTiny] 0 findPath_tiny _ calcWaterRoute_tiny

/-! ### A* returns only grid points (membership invariant) -/

/-- The nearest-point scan returns a member of the scanned grid. -/
theorem scanNearest_mem {lat lng : ℚ} {grid : List GridPoint} {p : GridPoint}
    (h : scanNearest lat lng grid = some p) : p ∈ grid := by
  unfold scanNearest at h
  obtain ⟨x, hx, hxp⟩ := Option.map_eq_some'.mp h
  subst hxp
  have key : ∀ (l : List GridPoint) (acc : Option (GridPoint × ℝ)),
      (∀ y : GridPoint × ℝ, acc = some y → y.1 ∈ grid) → (∀ q ∈ l, q ∈ grid) →
      ∀ y : GridPoint × ℝ,
        l.foldl (fun acc p =>
          let d := haversineDistance lat lng p.lat p.lng
          match acc with
          | none => some (p, d)
          | some (q, dq) => if d < dq then some (p, d) else some (q, dq)) acc =
          some y → y.1 ∈ grid := by
    intro l
    induction l with
    | nil => intro acc hacc _ y hy; exact hacc y hy
    | cons q rest ih =>
      intro acc hacc hl y hy
      refine ih _ ?_ (fun r hr => hl r (List.mem_cons_of_mem _ hr)) y hy
      intro z hz
      dsimp only at hz
      cases acc with
      | none =>
        obtain rfl : (q, _) = z := Option.some.inj hz
        exact hl q (List.mem_cons_self _ _)
      | some rd =>
        obtain ⟨r0, d0⟩ := rd
        dsimp only at hz
        split at hz
        · obtain rfl : (q, _) = z := Option.some.inj hz
          exact hl q (List.mem_cons_self _ _)
        · obtain rfl : (r0, d0) = z := Option.some.inj hz
          exact hacc (r0, d0) rfl
  exact key grid none (by intro y hy; cases hy) (fun q hq => hq) x hx

/-- The open-set minimum scan returns a member of the open set. -/
theorem astarPick_mem {f : ℕ → WithTop ℝ} {openSet : List GridPoint}
    {p : GridPoint} (h : astarPick f openSet = some p) : p ∈ openSet := by
  unfold astarPick at h
  obtain ⟨x, hx, hxp⟩ := Option.map_eq_some'.mp h
  subst hxp
  have key : ∀ (l : List GridPoint) (acc : Option (GridPoint × WithTop ℝ)),
      (∀ y : GridPoint × WithTop ℝ, acc = some y → y.1 ∈ openSet) →
      (∀ q ∈ l, q ∈ openSet) →
      ∀ y : GridPoint × WithTop ℝ,
        l.foldl (fun acc p =>
          match acc with
          | none => if f p.id < ⊤ then some (p, f p.id) else none
          | some (q, dq) =>
            if f p.id < dq then some (p, f p.id) else some (q, dq)) acc =
          some y → y.1 ∈ openSet := by
    intro l
    induction l with
    | nil => intro acc hacc _ y hy; exact hacc y hy
    | cons q rest ih =>
      intro acc hacc hl y hy
      refine ih _ ?_ (fun r hr => hl r (List.mem_cons_of_mem _ hr)) y hy
      intro z hz
      cases acc with
      | none =>
        dsimp only at hz
        split at hz
        · obtain rfl : (q, _) = z := Option.some.inj hz
          exact hl q (List.mem_cons_self _ _)
        · cases hz
      | some rd =>
        obtain ⟨r0, d0⟩ := rd
        dsimp only at hz
        split at hz
        · obtain rfl : (q, _) = z := Option.some.inj hz
          exact hl q (List.mem_cons_self _ _)
        · obtain rfl : (r0, d0) = z := Option.some.inj hz
          exact hacc (r0, d0) rfl
  exact key openSet none (by intro y hy; cases hy) (fun q hq => hq) x hx

/-- Grid-index lookups return grid members. -/
theorem gridIndexLookup_mem {grid : List GridPoint} {r c : ℤ} {p : GridPoint}
    (h : gridIndexLookup grid r c = some p) : p ∈ grid :=
  List.mem_of_find?_eq_some h

/-- Neighbors are grid members. -/
theorem getNeighbors_mem {grid : List GridPoint} {q p : GridPoint}
    (h : p ∈ getNeighbors grid q) : p ∈ grid := by
  unfold getNeighbors at h
  obtain ⟨d, -, hd⟩ := List.mem_filterMap.mp h
  exact gridIndexLookup_mem hd

/-- One relaxation step only adds the relaxed neighbor to the open set. -/
theorem astarRelax_fst_mem {pb : ℕ → Option GridPoint} {ep cur : GridPoint}
    {closed : List ℕ}
    {acc : List GridPoint × (ℕ → Option ℕ) × (ℕ → WithTop ℝ) × (ℕ → WithTop ℝ)}
    {n x : GridPoint} (h : x ∈ (astarRelax pb ep cur closed acc n).1) :
    x ∈ acc.1 ∨ x = n := by
  have hcases : (astarRelax pb ep cur closed acc n).1 = acc.1 ∨
      (astarRelax pb ep cur closed acc n).1 = acc.1 ++ [n] := by
    unfold astarRelax
    dsimp only
    split
    · exact Or.inl rfl
    · split
      · dsimp only
        split
        · exact Or.inl rfl
        · exact Or.inr rfl
      · exact Or.inl rfl
  rcases hcases with hc | hc
  · rw [hc] at h
    exact Or.inl h
  · rw [hc] at h
    rcases List.mem_append.mp h with h' | h'
    · exact Or.inl h'
    · exact Or.inr (List.mem_singleton.mp h')

/-- Folding relaxation over the neighbor list only adds neighbors. -/
theorem astarRelax_foldl_mem {pb : ℕ → Option GridPoint} {ep cur : GridPoint}
    {closed : List ℕ} (ns : List GridPoint)
    (acc : List GridPoint × (ℕ → Option ℕ) × (ℕ → WithTop ℝ) × (ℕ → WithTop ℝ))
    {x : GridPoint}
    (h : x ∈ (ns.foldl (astarRelax pb ep cur closed) acc).1) :
    x ∈ acc.1 ∨ x ∈ ns := by
  induction ns generalizing acc with
  | nil => exact Or.inl h
  | cons n rest ih =>
    rcases ih _ h with h' | h'
    · rcases astarRelax_fst_mem h' with h'' | h''
      · exact Or.inl h''
      · exact Or.inr (h'' ▸ List.mem_cons_self _ _)
    · exact Or.inr (List.mem_cons_of_mem _ h')

/-- Path reconstruction yields only `pointById` values and seeds. -/
theorem reconstructPath_mem {pb : ℕ → Option GridPoint} {cf : ℕ → Option ℕ}
    (fuel : ℕ) (curr : ℕ) (acc : List GridPoint) {x : GridPoint}
    (h : x ∈ reconstructPath pb cf fuel curr acc) :
    (∃ i, pb i = some x) ∨ x ∈ acc := by
  induction fuel generalizing curr acc with
  | zero => exact Or.inr h
  | succ fuel ih =>
    unfold reconstructPath at h
    cases hcf : cf curr with
    | none => rw [hcf] at h; exact Or.inr h
    | some prev =>
      rw [hcf] at h
      dsimp only at h
      cases hpb : pb prev with
      | none => rw [hpb] at h; exact Or.inr h
      | some p =>
        rw [hpb] at h
        rcases ih prev (p :: acc) h with h' | h'
        · exact Or.inl h'
        · rcases List.mem_cons.mp h' with h'' | h''
          · exact Or.inl ⟨prev, h'' ▸ hpb⟩
          · exact Or.inr h''

/-- The A* loop only returns paths of grid members, provided the open set
holds grid members and `pointById` only returns grid members. -/
theorem astarLoop_mem {grid : List GridPoint} {pb : ℕ → Option GridPoint}
    {ep : GridPoint} (fuel : ℕ) (openSet : List GridPoint)
    (came : ℕ → Option ℕ) (g f : ℕ → WithTop ℝ) (closed : List ℕ)
    {path : List GridPoint} {dist : ℝ}
    (h : astarLoop grid pb ep fuel openSet came g f closed = some (path, dist))
    (hopen : ∀ p ∈ openSet, p ∈ grid)
    (hpb : ∀ i q, pb i = some q → q ∈ grid) :
    ∀ x ∈ path, x ∈ grid := by
  induction fuel generalizing openSet came g f closed path dist with
  | zero => cases h
  | succ fuel ih =>
    unfold astarLoop at h
    split at h
    · cases h
    · cases hpick : astarPick f openSet with
      | none => rw [hpick] at h; cases h
      | some current =>
        rw [hpick] at h
        dsimp only at h
        by_cases hgoal : current.id = ep.id
        · rw [if_pos hgoal] at h
          obtain ⟨hpath, -⟩ := Prod.mk.injEq .. ▸ Option.some.inj h
          subst hpath
          intro x hx
          rcases reconstructPath_mem grid.length current.id [current] hx with
            ⟨i, hi⟩ | hx'
          · exact hpb i x hi
          · rw [List.mem_singleton.mp hx']
            exact hopen current (astarPick_mem hpick)
        · rw [if_neg hgoal] at h
          refine ih _ _ _ _ _ h ?_
          intro p hp
          rcases astarRelax_foldl_mem _ _ hp with h' | h'
          · exact hopen p (List.mem_of_mem_filter h')
          · exact getNeighbors_mem h'

/-- A successful `findPath` exposes a generated grid containing every
returned waypoint. -/
theorem findPath_grid_mem {st : NavState} {a b c d : ℚ}
    {fp : List GridPoint} {dist : ℝ}
    (h : findPath st a b c d = some (fp, dist)) :
    ∃ grid, generateWaterGrid st = some grid ∧ ∀ p ∈ fp, p ∈ grid := by
  unfold findPath at h
  split at h
  · cases h
  · cases hg : generateWaterGrid st with
    | none => rw [hg] at h; cases h
    | some grid =>
      rw [hg] at h
      dsimp only at h
      split at h
      · cases h
      · refine ⟨grid, rfl, ?_⟩
        cases hn1 : findNearestGridPoint st a b with
        | none => rw [hn1] at h; cases h
        | some startPoint =>
          cases hn2 : findNearestGridPoint st c d with
          | none => rw [hn1, hn2] at h; cases h
          | some endPoint =>
            rw [hn1, hn2] at h
            dsimp only at h
            split at h
            · cases h
            · split at h
              · cases h
              · have hstart : startPoint ∈ grid := by
                  unfold findNearestGridPoint at hn1
                  rw [hg] at hn1
                  dsimp only at hn1
                  split at hn1
                  · cases hn1
                  · exact scanNearest_mem hn1
                exact astarLoop_mem _ _ _ _ _ _ h
                  (by intro p hp; rw [List.mem_singleton.mp hp]; exact hstart)
                  (by intro i q hq; exact List.mem_of_find?_eq_some hq)

/-- Amended claim C1: in a found-path route every coordinate strictly
between the first and the last lies in navigable water; the first and last
output coordinates are the raw POI endpoints, which the pipeline copies into
the output without validation (see `claim_C1_counterexample`), and with
smoothing shipped disabled the revalidation pass never runs. -/
theorem claim_C1_amended_interior_water (st : NavState)
    (hexact : cfgExact st.gridConfig) (hcache : st.waterGridCache = none)
    (p1 p2 : String) (poi1 poi2 : Poi)
    (h1 : st.pois.find? (fun p => p.id == p1) = some poi1)
    (h2 : st.pois.find? (fun p => p.id == p2) = some poi2)
    (hne : p1 ≠ p2) (r : RouteResult)
    (hr : calculateWaterRoute st p1 p2 = some r) (hnf : r.isFallback = false) :
    ∀ c ∈ (r.coordinates.drop 1).dropLast,
      isInWater st.boundaries c.1 c.2 = true := by
  unfold calculateWaterRoute at hr
  rw [h1, h2] at hr
  dsimp only at hr
  rw [if_neg (by simpa using hne)] at hr
  cases hfp : findPath st poi1.lat poi1.lng poi2.lat poi2.lng with
  | none =>
    rw [hfp] at hr
    obtain rfl := Option.some.inj hr
    simp at hnf
  | some pr =>
    obtain ⟨fp, dist⟩ := pr
    rw [hfp] at hr
    dsimp only at hr
    obtain rfl := Option.some.inj hr
    rw [successRouteResult_coordinates]
    have hmid : ((rawRouteCoords poi1 poi2 fp).drop 1).dropLast =
        fp.map (fun p => (p.lat, p.lng)) := by
      unfold rawRouteCoords
      simp [List.dropLast_concat]
    rw [hmid]
    intro c hc
    obtain ⟨p, hp, rfl⟩ := List.mem_map.mp hc
    obtain ⟨grid, hg, hmem⟩ := findPath_grid_mem hfp
    have hpg : p ∈ buildWaterGrid st := by
      have hb := generateWaterGrid_fresh hcache hg
      exact hb ▸ hmem p hp
    obtain ⟨⟨k, l, hlat, hlng, hw⟩, -⟩ := buildWaterGrid_good st p hpg
    dsimp only
    rw [hlat, hlng, latOf_exact hexact, lngOf_exact hexact]
    exact hw

/-- Witness for the amended C1 on the tiny found-path route: the (sole)
interior coordinate of the found route is in water. -/
theorem claim_C1_amended_interior_water_witness :
    isInWater stTiny.boundaries (gpTiny.lat, gpTiny.lng).1
      (gpTiny.lat, gpTiny.lng).2 = true :=
  claim_C1_amended_interior_water stTiny cfgExact_cfgTiny rfl "land-poi"
    "water-poi" poiLand poiWater rfl rfl (by decide) _ calcWaterRoute_tiny
    (successRouteResult_isFallback _ _ _ _) (gpTiny.lat, gpTiny.lng)
    (by rw [successRouteResult_coordinates]
        exact List.mem_singleton.mpr rfl)

/-! ### Straight-line fallback legs (claim C6) -/

/-- Claim C6: a leg gets `isFallback = true` exactly when its stops are
distinct and `findPath` found no grid path, and such a leg's distance is the
great-circle distance between the two raw stop coordinates (its coordinates
are the raw endpoint pair). -/
theorem claim_C6_fallback_iff (st : NavState) (p1 p2 : String) (poi1 poi2 : Poi)
    (h1 : st.pois.find? (fun p => p.id == p1) = some poi1)
    (h2 : st.pois.find? (fun p => p.id == p2) = some poi2)
    (r : RouteResult) (hr : calculateWaterRoute st p1 p2 = some r) :
    (r.isFallback = true ↔
      p1 ≠ p2 ∧ findPath st poi1.lat poi1.lng poi2.lat poi2.lng = none) ∧
    (r.isFallback = true →
      r.distance = haversineDistance poi1.lat poi1.lng poi2.lat poi2.lng ∧
      r.coordinates = [(poi1.lat, poi1.lng), (poi2.lat, poi2.lng)]) := by
  unfold calculateWaterRoute at hr
  rw [h1, h2] at hr
  dsimp only at hr
  by_cases heq : p1 = p2
  · subst heq
    rw [if_pos (by simp)] at hr
    obtain rfl : _ = r := Option.some.inj hr
    simp
  · rw [if_neg (by simpa using heq)] at hr
    cases hfp : findPath st poi1.lat poi1.lng poi2.lat poi2.lng with
    | none =>
      rw [hfp] at hr
      obtain rfl : _ = r := Option.some.inj hr
      simpa using heq
    | some pr =>
      rw [hfp] at hr
      obtain ⟨finalPath, dist⟩ := pr
      dsimp only at hr
      obtain rfl : _ = r := Option.some.inj hr
      simp [successRouteResult_isFallback]

/-- With a `null` boundary store, `findPath` returns "no path". -/
theorem findPath_noWater_eval :
    findPath stNoWater poiLand.lat poiLand.lng poiWater.lat poiWater.lng =
      none := by
  unfold findPath
  rw [if_neg (by norm_num [poiLand, poiWater])]
  rfl

/-- With a `null` boundary store, `calculateWaterRoute` degrades to the
straight-line fallback leg. -/
theorem calcWaterRoute_noWater_eval :
    calculateWaterRoute stNoWater "land-poi" "water-poi" =
      some { coordinates := [(poiLand.lat, poiLand.lng),
                             (poiWater.lat, poiWater.lng)],
             distance := haversineDistance poiLand.lat poiLand.lng
               poiWater.lat poiWater.lng,
             path := [], isFallback := true } := by
  unfold calculateWaterRoute
  rw [show stNoWater.pois.find? (fun p => p.id == "land-poi") = some poiLand
      from rfl,
    show stNoWater.pois.find? (fun p => p.id == "water-poi") = some poiWater
      from rfl]
  dsimp only
  rw [if_neg (by decide : ¬ (("land-poi" == "water-poi") = true)),
    findPath_noWater_eval]

/-- Witness for C6: with a `null` boundary store every leg is a fallback leg
with the straight-line distance. -/
theorem claim_C6_fallback_iff_witness :
    (({ coordinates := [(poiLand.lat, poiLand.lng), (poiWater.lat, poiWater.lng)],
        distance := haversineDistance poiLand.lat poiLand.lng
          poiWater.lat poiWater.lng,
        path := [], isFallback := true } : RouteResult).isFallback = true ↔
      "land-poi" ≠ "water-poi" ∧
        findPath stNoWater poiLand.lat poiLand.lng poiWater.lat
          poiWater.lng = none) ∧
    (({ coordinates := [(poiLand.lat, poiLand.lng), (poiWater.lat, poiWater.lng)],
        distance := haversineDistance poiLand.lat poiLand.lng
          poiWater.lat poiWater.lng,
        path := [], isFallback := true } : RouteResult).isFallback = true →
      ({ coordinates := [(poiLand.lat, poiLand.lng), (poiWater.lat, poiWater.lng)],
         distance := haversineDistance poiLand.lat poiLand.lng
           poiWater.lat poiWater.lng,
         path := [], isFallback := true } : RouteResult).distance =
          haversineDistance poiLand.lat poiLand.lng poiWater.lat poiWater.lng ∧
      ({ coordinates := [(poiLand.lat, poiLand.lng), (poiWater.lat, poiWater.lng)],
         distance := haversineDistance poiLand.lat poiLand.lng
           poiWater.lat poiWater.lng,
         path := [], isFallback := true } : RouteResult).coordinates =
          [(poiLand.lat, poiLand.lng), (poiWater.lat, poiWater.lng)]) :=
  claim_C6_fallback_iff stNoWater "land-poi" "water-poi" poiLand poiWater
    rfl rfl _ calcWaterRoute_noWater_eval

/-! ### Claim C7: junction deduplication in multi-stop assembly -/

/-- A loop iteration with index `k ≠ 0` appends exactly the leg's coordinate
sequence minus its first coordinate. -/
theorem calcRouteStep_tail (st : NavState) (k : ℕ) (hk : k ≠ 0)
    (pr : String × String) (acc : List (ℚ × ℚ) × ℝ × List RouteLeg) :
    (calcRouteStep st acc (k, pr)).1 =
      acc.1 ++ (legCoords st pr.1 pr.2).drop 1 := by
  unfold calcRouteStep legCoords
  cases h1 : st.pois.find? (fun p => p.id == pr.1) with
  | none =>
    cases h2 : st.pois.find? (fun p => p.id == pr.2) <;> simp
  | some sp =>
    cases h2 : st.pois.find? (fun p => p.id == pr.2) with
    | none => simp
    | some ep =>
      have hsp : sp.id = pr.1 := eq_of_beq (by simpa using List.find?_some h1)
      have hep : ep.id = pr.2 := eq_of_beq (by simpa using List.find?_some h2)
      dsimp only
      unfold legContribution
      rw [hsp, hep]
      cases hr : calculateWaterRoute st pr.1 pr.2 with
      | none =>
        dsimp only
        rw [if_neg hk]
        rfl
      | some r =>
        dsimp only
        cases hb : r.isFallback with
        | false =>
          simp only [hb, Bool.not_false, if_true]
          rw [if_neg hk]
        | true =>
          simp only [hb, Bool.not_true, Bool.false_eq_true, if_false]
          rw [if_neg hk]
          rfl

/-- The first loop iteration (index `0`, empty accumulator) produces exactly
the first leg's coordinate sequence. -/
theorem calcRouteStep_zero (st : NavState) (pr : String × String) :
    (calcRouteStep st ([], 0, []) (0, pr)).1 = legCoords st pr.1 pr.2 := by
  unfold calcRouteStep legCoords
  cases h1 : st.pois.find? (fun p => p.id == pr.1) with
  | none =>
    cases h2 : st.pois.find? (fun p => p.id == pr.2) <;> simp
  | some sp =>
    cases h2 : st.pois.find? (fun p => p.id == pr.2) with
    | none => simp
    | some ep =>
      have hsp : sp.id = pr.1 := eq_of_beq (by simpa using List.find?_some h1)
      have hep : ep.id = pr.2 := eq_of_beq (by simpa using List.find?_some h2)
      dsimp only
      unfold legContribution
      rw [hsp, hep]
      cases hr : calculateWaterRoute st pr.1 pr.2 with
      | none => rfl
      | some r =>
        dsimp only
        cases hb : r.isFallback with
        | false => simp only [hb, Bool.not_false, if_true]
        | true =>
          simp only [hb, Bool.not_true, Bool.false_eq_true, if_false]
          rfl

/-- Folding the loop body over the tail pairs (indices `≥ 1`) appends each
leg's coordinates minus its first coordinate, in order. -/
theorem calcRoute_fold_tail (st : NavState) (pairs : List (String × String)) :
    ∀ k : ℕ, k ≠ 0 → ∀ acc : List (ℚ × ℚ) × ℝ × List RouteLeg,
    ((List.enumFrom k pairs).foldl (calcRouteStep st) acc).1 =
      acc.1 ++
        (pairs.map (fun pr => (legCoords st pr.1 pr.2).drop 1)).flatten := by
  induction pairs with
  | nil =>
    intro k hk acc
    simp [List.enumFrom]
  | cons pr rest ih =>
    intro k hk acc
    rw [List.enumFrom_cons, List.foldl_cons,
      ih (k + 1) (Nat.succ_ne_zero k) (calcRouteStep st acc (k, pr)),
      calcRouteStep_tail st k hk pr acc]
    simp [List.map_cons, List.flatten_cons, List.append_assoc]

/-- Mechanism of claim C7: the assembled coordinate list of app.js
`calculateRoute` is the junction-deduplicating concatenation of the per-leg
coordinate sequences (first leg whole, every later leg minus its first
coordinate). -/
theorem calculateRoute_coords (st : NavState) (stops : List (Option String))
    (res : List (ℚ × ℚ) × ℝ × List RouteLeg)
    (hroute : calculateRoute st stops = some res) :
    res.1 = dedupConcat (legCoordsList st (stops.filterMap id)) := by
  unfold calculateRoute at hroute
  dsimp only at hroute
  by_cases hlen : (stops.filterMap id).length < 2
  · rw [if_pos hlen] at hroute
    exact absurd hroute (by simp)
  · rw [if_neg hlen] at hroute
    obtain rfl : _ = res := Option.some.inj hroute
    rcases hvs : stops.filterMap id with _ | ⟨s0, _ | ⟨s1, rest⟩⟩
    · rw [hvs] at hlen
      simp at hlen
    · rw [hvs] at hlen
      simp at hlen
    · rw [show (s0 :: s1 :: rest).zip (s0 :: s1 :: rest).tail =
            (s0, s1) :: ((s1 :: rest).zip rest) from rfl]
      rw [show List.enum ((s0, s1) :: ((s1 :: rest).zip rest)) =
            (0, (s0, s1)) :: List.enumFrom 1 ((s1 :: rest).zip rest) from rfl]
      rw [List.foldl_cons,
        calcRoute_fold_tail st ((s1 :: rest).zip rest) 1 one_ne_zero
          (calcRouteStep st ([], 0, []) (0, (s0, s1))),
        calcRouteStep_zero st (s0, s1)]
      simp [dedupConcat, legCoordsList, List.map_map, Function.comp_def]

/-- Dropping a list's first element cannot increase an element's count. -/
theorem count_drop_one_le (x : ℚ × ℚ) (l : List (ℚ × ℚ)) :
    List.count x (l.drop 1) ≤ List.count x l :=
  (List.drop_sublist 1 l).count_le x

/-- Legs that avoid `x` entirely contribute no occurrence of `x` after the
junction-dropping concatenation. -/
theorem count_flatten_drops (x : ℚ × ℚ) (ls : List (List (ℚ × ℚ)))
    (h : ∀ l ∈ ls, List.count x l = 0) :
    List.count x ((ls.map (fun t => t.drop 1)).flatten) = 0 := by
  induction ls with
  | nil => simp
  | cons l ls ih =>
    rw [List.map_cons, List.flatten_cons, List.count_append]
    have h1 : List.count x (l.drop 1) = 0 :=
      Nat.le_zero.mp (h l (List.mem_cons_self l ls) ▸ count_drop_one_le x l)
    rw [h1, ih (fun m hm => h m (List.mem_cons_of_mem l hm))]

/-- Dropping the head of a list that starts with `x` and holds `x` once
removes the sole occurrence. -/
theorem count_drop_head_eq (x : ℚ × ℚ) (l : List (ℚ × ℚ))
    (hh : l.head? = some x) (hc : List.count x l = 1) :
    List.count x (l.drop 1) = 0 := by
  cases l with
  | nil => simp at hh
  | cons a t =>
    have ha : a = x := by simpa using hh
    rw [ha, List.count_cons_self] at hc
    show List.count x t = 0
    omega

/-- Dropping the head of a list that does not start with `x` preserves the
count of `x`. -/
theorem count_drop_ne_head (x : ℚ × ℚ) (l : List (ℚ × ℚ))
    (hne : l.head? ≠ some x) (hc : List.count x l = 1) :
    List.count x (l.drop 1) = 1 := by
  cases l with
  | nil => simp at hc
  | cons a t =>
    have hax : x ≠ a := by
      intro h
      exact hne (by simp [h])
    rw [List.count_cons_of_ne hax] at hc
    exact hc

/-- Claim C7: a multi-stop route's coordinate list is assembled with junction
deduplication — the first leg's coordinates are kept whole and every later
leg is appended minus its first coordinate — so an inter-leg junction
coordinate (end of one leg, start of the next) that occurs exactly once in
each of its two adjacent legs and nowhere in any other leg appears exactly
once in the concatenated list (the genericity disjunct rules out the
degenerate non-first single-point leg `[x]`). -/
theorem claim_C7_junction_dedup (st : NavState) (stops : List (Option String))
    (coords : List (ℚ × ℚ)) (total : ℝ) (legs : List RouteLeg)
    (hroute : calculateRoute st stops = some (coords, total, legs))
    (x : ℚ × ℚ) (L1 L2 : List (List (ℚ × ℚ))) (legA legB : List (ℚ × ℚ))
    (hsplit : legCoordsList st (stops.filterMap id) =
      L1 ++ legA :: legB :: L2)
    (_hlastA : legA.getLast? = some x) (hheadB : legB.head? = some x)
    (hcountA : List.count x legA = 1) (hcountB : List.count x legB = 1)
    (hothers : ∀ l ∈ L1 ++ L2, List.count x l = 0)
    (hgen : L1 = [] ∨ legA.head? ≠ some x) :
    coords = dedupConcat (legCoordsList st (stops.filterMap id)) ∧
      List.count x coords = 1 := by
  have hmech : coords = dedupConcat (legCoordsList st (stops.filterMap id)) :=
    calculateRoute_coords st stops (coords, total, legs) hroute
  refine ⟨hmech, ?_⟩
  rw [hmech, hsplit]
  have hB : List.count x (legB.drop 1) = 0 :=
    count_drop_head_eq x legB hheadB hcountB
  cases L1 with
  | nil =>
    show List.count x (dedupConcat (legA :: legB :: L2)) = 1
    rw [show dedupConcat (legA :: legB :: L2) =
        legA ++ ((legB :: L2).map (fun t => t.drop 1)).flatten from rfl]
    rw [List.map_cons, List.flatten_cons, List.count_append,
      List.count_append, hcountA, hB,
      count_flatten_drops x L2 (fun l hl => hothers l (by simp [hl]))]
  | cons K L1x =>
    have hAhead : legA.head? ≠ some x := hgen.resolve_left (by simp)
    have hA1 : List.count x (legA.drop 1) = 1 :=
      count_drop_ne_head x legA hAhead hcountA
    have hK : List.count x K = 0 := hothers K (by simp)
    have hL1 : List.count x ((L1x.map (fun t => t.drop 1)).flatten) = 0 :=
      count_flatten_drops x L1x (fun l hl => hothers l (by simp [hl]))
    have hL2 : List.count x ((L2.map (fun t => t.drop 1)).flatten) = 0 :=
      count_flatten_drops x L2 (fun l hl => hothers l (by simp [hl]))
    show List.count x (dedupConcat (K :: (L1x ++ legA :: legB :: L2))) = 1
    rw [show dedupConcat (K :: (L1x ++ legA :: legB :: L2)) =
        K ++ ((L1x ++ legA :: legB :: L2).map
          (fun t => t.drop 1)).flatten from rfl]
    rw [List.map_append, List.flatten_append, List.map_cons,
      List.flatten_cons, List.map_cons, List.flatten_cons]
    simp only [List.count_append]
    omega

/-- With a `null` boundary store, `findPath` also finds no path between the
two in-lake POIs. -/
theorem findPath_noWater_eval2 :
    findPath stNoWater poiWater.lat poiWater.lng poiWater2.lat
      poiWater2.lng = none := by
  unfold findPath
  rw [if_neg (by norm_num [poiWater, poiWater2])]
  rfl

/-- With a `null` boundary store, the second leg also degrades to the
straight-line fallback. -/
theorem calcWaterRoute_noWater_eval2 :
    calculateWaterRoute stNoWater "water-poi" "water-poi-2" =
      some { coordinates := [(poiWater.lat, poiWater.lng),
                             (poiWater2.lat, poiWater2.lng)],
             distance := haversineDistance poiWater.lat poiWater.lng
               poiWater2.lat poiWater2.lng,
             path := [], isFallback := true } := by
  unfold calculateWaterRoute
  rw [show stNoWater.pois.find? (fun p => p.id == "water-poi") = some poiWater
      from rfl,
    show stNoWater.pois.find? (fun p => p.id == "water-poi-2") = some poiWater2
      from rfl]
  dsimp only
  rw [if_neg (by decide : ¬ (("water-poi" == "water-poi-2") = true)),
    findPath_noWater_eval2]

/-- The first fallback leg's coordinate sequence. -/
theorem legCoords_noWater_1 :
    legCoords stNoWater "land-poi" "water-poi" =
      [(poiLand.lat, poiLand.lng), (poiWater.lat, poiWater.lng)] := by
  unfold legCoords
  rw [show stNoWater.pois.find? (fun p => p.id == "land-poi") = some poiLand
      from rfl,
    show stNoWater.pois.find? (fun p => p.id == "water-poi") = some poiWater
      from rfl,
    calcWaterRoute_noWater_eval]
  rfl

/-- The second fallback leg's coordinate sequence. -/
theorem legCoords_noWater_2 :
    legCoords stNoWater "water-poi" "water-poi-2" =
      [(poiWater.lat, poiWater.lng), (poiWater2.lat, poiWater2.lng)] := by
  unfold legCoords
  rw [show stNoWater.pois.find? (fun p => p.id == "water-poi") = some poiWater
      from rfl,
    show stNoWater.pois.find? (fun p => p.id == "water-poi-2") = some poiWater2
      from rfl,
    calcWaterRoute_noWater_eval2]
  rfl

/-- Concrete three-stop itinerary over the boundary-less state: two fallback
legs sharing the mid-lake junction, assembled with the junction written
once. -/
theorem calcRoute_noWater_three :
    calculateRoute stNoWater
        [some "land-poi", some "water-poi", some "water-poi-2"] =
      some ([(poiLand.lat, poiLand.lng), (poiWater.lat, poiWater.lng),
             (poiWater2.lat, poiWater2.lng)],
            0 + haversineDistance poiLand.lat poiLand.lng poiWater.lat
              poiWater.lng +
              haversineDistance poiWater.lat poiWater.lng poiWater2.lat
                poiWater2.lng,
            [{ fromName := poiLand.name, toName := poiWater.name,
               distanceKm := haversineDistance poiLand.lat poiLand.lng
                 poiWater.lat poiWater.lng },
             { fromName := poiWater.name, toName := poiWater2.name,
               distanceKm := haversineDistance poiWater.lat poiWater.lng
                 poiWater2.lat poiWater2.lng }]) := by
  have h0 : calcRouteStep stNoWater ([], 0, [])
      (0, ("land-poi", "water-poi")) =
      ([(poiLand.lat, poiLand.lng), (poiWater.lat, poiWater.lng)],
       0 + haversineDistance poiLand.lat poiLand.lng poiWater.lat poiWater.lng,
       [{ fromName := poiLand.name, toName := poiWater.name,
          distanceKm := haversineDistance poiLand.lat poiLand.lng
            poiWater.lat poiWater.lng }]) := by
    unfold calcRouteStep
    rw [show stNoWater.pois.find? (fun p => p.id == "land-poi") = some poiLand
        from rfl,
      show stNoWater.pois.find? (fun p => p.id == "water-poi") = some poiWater
        from rfl]
    dsimp only
    unfold legContribution
    rw [show calculateWaterRoute stNoWater poiLand.id poiWater.id =
        some { coordinates := [(poiLand.lat, poiLand.lng),
                               (poiWater.lat, poiWater.lng)],
               distance := haversineDistance poiLand.lat poiLand.lng
                 poiWater.lat poiWater.lng,
               path := [], isFallback := true }
        from calcWaterRoute_noWater_eval]
    rfl
  have h1 : calcRouteStep stNoWater
      ([(poiLand.lat, poiLand.lng), (poiWater.lat, poiWater.lng)],
       0 + haversineDistance poiLand.lat poiLand.lng poiWater.lat poiWater.lng,
       [{ fromName := poiLand.name, toName := poiWater.name,
          distanceKm := haversineDistance poiLand.lat poiLand.lng
            poiWater.lat poiWater.lng }])
      (1, ("water-poi", "water-poi-2")) =
      ([(poiLand.lat, poiLand.lng), (poiWater.lat, poiWater.lng),
        (poiWater2.lat, poiWater2.lng)],
       0 + haversineDistance poiLand.lat poiLand.lng poiWater.lat
         poiWater.lng +
         haversineDistance poiWater.lat poiWater.lng poiWater2.lat
           poiWater2.lng,
       [{ fromName := poiLand.name, toName := poiWater.name,
          distanceKm := haversineDistance poiLand.lat poiLand.lng
            poiWater.lat poiWater.lng },
        { fromName := poiWater.name, toName := poiWater2.name,
          distanceKm := haversineDistance poiWater.lat poiWater.lng
            poiWater2.lat poiWater2.lng }]) := by
    unfold calcRouteStep
    rw [show stNoWater.pois.find? (fun p => p.id == "water-poi") =
        some poiWater from rfl,
      show stNoWater.pois.find? (fun p => p.id == "water-poi-2") =
        some poiWater2 from rfl]
    dsimp only
    unfold legContribution
    rw [show calculateWaterRoute stNoWater poiWater.id poiWater2.id =
        some { coordinates := [(poiWater.lat, poiWater.lng),
                               (poiWater2.lat, poiWater2.lng)],
               distance := haversineDistance poiWater.lat poiWater.lng
                 poiWater2.lat poiWater2.lng,
               path := [], isFallback := true }
        from calcWaterRoute_noWater_eval2]
    rfl
  unfold calculateRoute
  dsimp only
  rw [if_neg (by decide)]
  rw [show List.enum
      ((([some "land-poi", some "water-poi",
          some "water-poi-2"].filterMap id).zip
        ([some "land-poi", some "water-poi",
          some "water-poi-2"].filterMap id).tail)) =
      [(0, ("land-poi", "water-poi")), (1, ("water-poi", "water-poi-2"))]
      from rfl]
  rw [List.foldl_cons, h0, List.foldl_cons, h1, List.foldl_nil]

/-- Witness for C7: a three-stop itinerary over the boundary-less state has
the mid-lake junction written exactly once in the assembled coordinate
list. -/
theorem claim_C7_junction_dedup_witness :
    [(poiLand.lat, poiLand.lng), (poiWater.lat, poiWater.lng),
     (poiWater2.lat, poiWater2.lng)] =
      dedupConcat (legCoordsList stNoWater
        ([some "land-poi", some "water-poi",
          some "water-poi-2"].filterMap id)) ∧
    List.count (poiWater.lat, poiWater.lng)
      [(poiLand.lat, poiLand.lng), (poiWater.lat, poiWater.lng),
       (poiWater2.lat, poiWater2.lng)] = 1 :=
  claim_C7_junction_dedup stNoWater
    [some "land-poi", some "water-poi", some "water-poi-2"]
    _ _ _ calcRoute_noWater_three
    (poiWater.lat, poiWater.lng) [] []
    [(poiLand.lat, poiLand.lng), (poiWater.lat, poiWater.lng)]
    [(poiWater.lat, poiWater.lng), (poiWater2.lat, poiWater2.lng)]
    (by show legCoordsList stNoWater ["land-poi", "water-poi", "water-poi-2"]
          = _
        unfold legCoordsList
        rw [show (["land-poi", "water-poi", "water-poi-2"].zip
            ["land-poi", "water-poi", "water-poi-2"].tail) =
            [("land-poi", "water-poi"), ("water-poi", "water-poi-2")]
            from rfl]
        rw [List.map_cons, List.map_cons, List.map_nil,
          legCoords_noWater_1, legCoords_noWater_2]
        rfl)
    rfl rfl
    (by rw [List.count_cons_of_ne
          (by norm_num [poiLand, poiWater, Prod.ext_iff]),
        List.count_cons_self, List.count_nil])
    (by rw [List.count_cons_self,
        List.count_cons_of_ne
          (by norm_num [poiWater, poiWater2, Prod.ext_iff]),
        List.count_nil])
    (by simp)
    (Or.inl rfl)

end LakeGuide
